import Mathlib

/-!
# STM32 peripheral drivers: BME280 calibration and compensation engine

A shallow embedding of `Drivers/BME280-TemHum Sensor/BME280.c` and `BME280.h`, of the
time, date, alarm, temperature and square-wave functions of `Drivers/DS3231-RTC/DS3231.c`
with the BCD helpers of `DS3231.h`, and of the channel selection of
`Drivers/ADS1115-ADC-16bit/ADS1115.c`.

Machine integers are modelled as `Int` (signed types) or `Nat` (raw bytes); every
arithmetic operation of the C code is followed by an explicit reduction to the width
of its C type (`wrap32`, `wrap64`, `toU32`, ...).  Signed right shift is the
arithmetic shift (`Int.shiftRight`, i.e. floor division by a power of two) and signed
division truncates toward zero (`Int.tdiv`); a division that C leaves undefined (zero
divisor, or the least value divided by -1) has no result, and a function that executes
one returns `none`.  The file-scope variable `t_fine` becomes an explicit
`BME280_Globals` value that is passed in and returned.
-/

namespace BME280

/-! ## Fixed-width integer arithmetic -/

/-- Reduction of an integer to the signed 32-bit range (two's-complement wrap-around). -/
def wrap32 (x : Int) : Int := (x + 2147483648) % 4294967296 - 2147483648

/-- Reduction of an integer to the signed 64-bit range (two's-complement wrap-around). -/
def wrap64 (x : Int) : Int :=
  (x + 9223372036854775808) % 18446744073709551616 - 9223372036854775808

/-- Conversion to `uint32_t`: the low 32 bits, read as an unsigned number. -/
def toU32 (x : Int) : Int := x % 4294967296

/-- Membership in the range of `int32_t`. -/
def InS32 (x : Int) : Prop := -2147483648 ≤ x ∧ x ≤ 2147483647

/-- Membership in the range of `int64_t`. -/
def InS64 (x : Int) : Prop := -9223372036854775808 ≤ x ∧ x ≤ 9223372036854775807

instance (x : Int) : Decidable (InS32 x) := by unfold InS32; infer_instance

instance (x : Int) : Decidable (InS64 x) := by unfold InS64; infer_instance

/-- The `int32_t` addition `a + b`. -/
def add32 (a b : Int) : Int := wrap32 (a + b)

/-- The `int32_t` subtraction `a - b`. -/
def sub32 (a b : Int) : Int := wrap32 (a - b)

/-- The `int32_t` multiplication `a * b`. -/
def mul32 (a b : Int) : Int := wrap32 (a * b)

/-- The `int32_t` left shift `a << k`. -/
def shl32 (a : Int) (k : Nat) : Int := wrap32 (a * 2 ^ k)

/-- The `int32_t` right shift `a >> k` (arithmetic: the sign is kept). -/
def sar32 (a : Int) (k : Nat) : Int := a >>> k

/-- The `int64_t` addition `a + b`. -/
def add64 (a b : Int) : Int := wrap64 (a + b)

/-- The `int64_t` subtraction `a - b`. -/
def sub64 (a b : Int) : Int := wrap64 (a - b)

/-- The `int64_t` multiplication `a * b`. -/
def mul64 (a b : Int) : Int := wrap64 (a * b)

/-- The `int64_t` left shift `a << k`. -/
def shl64 (a : Int) (k : Nat) : Int := wrap64 (a * 2 ^ k)

/-- The `int64_t` right shift `a >> k` (arithmetic: the sign is kept). -/
def sar64 (a : Int) (k : Nat) : Int := a >>> k

/-- The `int64_t` division `a / b`, truncating toward zero.  It has no result (`none`)
where the C division is undefined and execution does not continue past it: for a zero
divisor, and for `INT64_MIN / -1`, whose quotient is not representable. -/
def div64 (a b : Int) : Option Int :=
  if b = 0 ∨ (a = -9223372036854775808 ∧ b = -1) then none
  else some (wrap64 (Int.tdiv a b))

/-! ## Data model (`BME280.h`) -/

/-- The calibration block `BME280_Compensations_t`.  Each field holds the numeric value
of the C field; the C type of the field is recorded by `BME280_Compensations_t.WF`. -/
structure BME280_Compensations_t where
  dig_T1 : Int
  dig_T2 : Int
  dig_T3 : Int
  dig_P1 : Int
  dig_P2 : Int
  dig_P3 : Int
  dig_P4 : Int
  dig_P5 : Int
  dig_P6 : Int
  dig_P7 : Int
  dig_P8 : Int
  dig_P9 : Int
  dig_H1 : Int
  dig_H2 : Int
  dig_H3 : Int
  dig_H4 : Int
  dig_H5 : Int
  dig_H6 : Int
deriving DecidableEq

/-- Range of `uint16_t`. -/
def InU16 (x : Int) : Prop := 0 ≤ x ∧ x ≤ 65535

/-- Range of `int16_t`. -/
def InS16 (x : Int) : Prop := -32768 ≤ x ∧ x ≤ 32767

/-- Range of `uint8_t`. -/
def InU8 (x : Int) : Prop := 0 ≤ x ∧ x ≤ 255

/-- Range of `int8_t`. -/
def InS8 (x : Int) : Prop := -128 ≤ x ∧ x ≤ 127

instance (x : Int) : Decidable (InU16 x) := by unfold InU16; infer_instance

instance (x : Int) : Decidable (InS16 x) := by unfold InS16; infer_instance

instance (x : Int) : Decidable (InU8 x) := by unfold InU8; infer_instance

instance (x : Int) : Decidable (InS8 x) := by unfold InS8; infer_instance

/-- Every field of the calibration block lies in the range of its C type. -/
def BME280_Compensations_t.WF (c : BME280_Compensations_t) : Prop :=
  InU16 c.dig_T1 ∧ InS16 c.dig_T2 ∧ InS16 c.dig_T3 ∧
  InU16 c.dig_P1 ∧ InS16 c.dig_P2 ∧ InS16 c.dig_P3 ∧ InS16 c.dig_P4 ∧ InS16 c.dig_P5 ∧
  InS16 c.dig_P6 ∧ InS16 c.dig_P7 ∧ InS16 c.dig_P8 ∧ InS16 c.dig_P9 ∧
  InU8 c.dig_H1 ∧ InS16 c.dig_H2 ∧ InU8 c.dig_H3 ∧ InS16 c.dig_H4 ∧ InS16 c.dig_H5 ∧
  InS8 c.dig_H6

instance (c : BME280_Compensations_t) : Decidable c.WF := by
  unfold BME280_Compensations_t.WF; infer_instance

/-- Every pressure and humidity coefficient of the calibration block is zero. -/
def BME280_Compensations_t.pressure_humidity_zero (c : BME280_Compensations_t) : Prop :=
  c.dig_P1 = 0 ∧ c.dig_P2 = 0 ∧ c.dig_P3 = 0 ∧ c.dig_P4 = 0 ∧ c.dig_P5 = 0 ∧
  c.dig_P6 = 0 ∧ c.dig_P7 = 0 ∧ c.dig_P8 = 0 ∧ c.dig_P9 = 0 ∧
  c.dig_H1 = 0 ∧ c.dig_H2 = 0 ∧ c.dig_H3 = 0 ∧ c.dig_H4 = 0 ∧ c.dig_H5 = 0 ∧ c.dig_H6 = 0

instance (c : BME280_Compensations_t) : Decidable c.pressure_humidity_zero := by
  unfold BME280_Compensations_t.pressure_humidity_zero; infer_instance

/-- The file-scope state of `BME280.c`: `static BME280_S32_t t_fine;`. -/
structure BME280_Globals where
  t_fine : Int
deriving DecidableEq

/-- The value of the file-scope state at program start (static storage is zeroed). -/
def BME280_Globals.init : BME280_Globals := { t_fine := 0 }

/-! ## Temperature compensation -/

/-- Embedding of `BME280_compensate_T_int32` (`BME280.c`, lines 40-50): returns the
temperature in 0.01 °C together with the file-scope state it leaves. -/
def BME280_compensate_T_int32 (adc_T : Int) (comp : BME280_Compensations_t)
    (_g : BME280_Globals) : Int × BME280_Globals :=
  let var1 := sar32 (mul32 (sub32 (sar32 adc_T 3) (shl32 comp.dig_T1 1)) comp.dig_T2) 11
  let var2 := sar32 (mul32 (sar32 (mul32 (sub32 (sar32 adc_T 4) comp.dig_T1)
                                         (sub32 (sar32 adc_T 4) comp.dig_T1)) 12)
                           comp.dig_T3) 14
  let t_fine := add32 var1 var2
  let T := sar32 (add32 (mul32 t_fine 5) 128) 8
  (T, { t_fine := t_fine })

/-- Arithmetic right shift as the specification understands it: the sign-preserving
shift of a two's-complement number, i.e. division by `2 ^ k` rounded toward minus
infinity. -/
def asr (x : Int) (k : Nat) : Int := x / 2 ^ k

/-- Specification §4.2, first line: `var1 = ((adcT >> 3) - (dig_T1 << 1)) * dig_T2 >> 11`
in 32-bit two's-complement arithmetic. -/
def spec_T_var1 (adcT dig_T1 dig_T2 : Int) : Int :=
  asr (wrap32 (wrap32 (asr adcT 3 - wrap32 (dig_T1 * 2)) * dig_T2)) 11

/-- Specification §4.2, second line:
`var2 = (((adcT >> 4) - dig_T1) * ((adcT >> 4) - dig_T1) >> 12) * dig_T3 >> 14`
in 32-bit two's-complement arithmetic. -/
def spec_T_var2 (adcT dig_T1 dig_T3 : Int) : Int :=
  asr (wrap32 (asr (wrap32 (wrap32 (asr adcT 4 - dig_T1) * wrap32 (asr adcT 4 - dig_T1))) 12
    * dig_T3)) 14

/-- Specification §4.2, third line: `fine_temperature = var1 + var2`. -/
def spec_T_fine (adcT dig_T1 dig_T2 dig_T3 : Int) : Int :=
  wrap32 (spec_T_var1 adcT dig_T1 dig_T2 + spec_T_var2 adcT dig_T1 dig_T3)

/-- Specification §4.2, last line: `T = (fine_temperature * 5 + 128) >> 8`. -/
def spec_T_out (fine : Int) : Int := asr (wrap32 (wrap32 (fine * 5) + 128)) 8

/-! ## Pressure compensation -/

/-- Embedding of `BME280_compensate_P_int64` (`BME280.c`, lines 58-77): the pressure in
1/256 Pa together with the (unchanged) file-scope state, or `none` when the division of
line 72 has no result and the call does not return.  The subtraction `1048576 - adc_P`
has two `int` operands, so it is a 32-bit operation whose result is then widened to
`int64_t`. -/
def BME280_compensate_P_int64 (adc_P : Int) (comp : BME280_Compensations_t)
    (g : BME280_Globals) : Option (Int × BME280_Globals) :=
  let var1 := sub64 g.t_fine 128000
  let var2 := mul64 (mul64 var1 var1) comp.dig_P6
  let var2 := add64 var2 (shl64 (mul64 var1 comp.dig_P5) 17)
  let var2 := add64 var2 (shl64 comp.dig_P4 35)
  let var1 := add64 (sar64 (mul64 (mul64 var1 var1) comp.dig_P3) 8)
                    (shl64 (mul64 var1 comp.dig_P2) 12)
  let var1 := sar64 (mul64 (add64 (shl64 1 47) var1) comp.dig_P1) 33
  if var1 = 0 then
    some (0, g)
  else
    let p := sub32 1048576 adc_P
    (div64 (mul64 (sub64 (shl64 p 31) var2) 3125) var1).bind fun p =>
      let var1 := sar64 (mul64 (mul64 comp.dig_P9 (sar64 p 13)) (sar64 p 13)) 25
      let var2 := sar64 (mul64 comp.dig_P8 p) 19
      let p := add64 (sar64 (add64 (add64 p var1) var2) 8) (shl64 comp.dig_P7 4)
      some (toU32 p, g)

/-- The value of `var1` that `BME280_compensate_P_int64` tests at line 67 and divides by
at line 72 (the statements of lines 61, 65 and 66). -/
def BME280_P_divisor (comp : BME280_Compensations_t) (g : BME280_Globals) : Int :=
  let var1 := sub64 g.t_fine 128000
  let var1 := add64 (sar64 (mul64 (mul64 var1 var1) comp.dig_P3) 8)
                    (shl64 (mul64 var1 comp.dig_P2) 12)
  sar64 (mul64 (add64 (shl64 1 47) var1) comp.dig_P1) 33

/-- The dividend `((p << 31) - var2) * 3125` of the division of line 72 (the statements
of lines 61-64 and 71, and the numerator of line 72). -/
def BME280_P_dividend (adc_P : Int) (comp : BME280_Compensations_t)
    (g : BME280_Globals) : Int :=
  let var1 := sub64 g.t_fine 128000
  let var2 := mul64 (mul64 var1 var1) comp.dig_P6
  let var2 := add64 var2 (shl64 (mul64 var1 comp.dig_P5) 17)
  let var2 := add64 var2 (shl64 comp.dig_P4 35)
  let p := sub32 1048576 adc_P
  mul64 (sub64 (shl64 p 31) var2) 3125

/-- The exact (unreduced) result of every arithmetic operation that
`BME280_compensate_P_int64` performs on its non-zero-divisor path, in evaluation order,
computed in unbounded integers.  The operation `1048576 - adc_P` is listed apart
(first component) because it is a 32-bit operation; all others are 64-bit. -/
def BME280_P_exact_intermediates (adc_P : Int) (comp : BME280_Compensations_t)
    (g : BME280_Globals) : Int × List Int :=
  let a1 := g.t_fine - 128000
  let a2 := a1 * a1
  let a3 := a2 * comp.dig_P6
  let a4 := a1 * comp.dig_P5
  let a5 := a4 * 2 ^ 17
  let a6 := a3 + a5
  let a7 := comp.dig_P4 * 2 ^ 35
  let a8 := a6 + a7
  let b1 := a2 * comp.dig_P3
  let b2 := a1 * comp.dig_P2
  let b3 := b2 * 2 ^ 12
  let b4 := b1 / 2 ^ 8 + b3
  let b5 := 2 ^ 47 + b4
  let b6 := b5 * comp.dig_P1
  let d := b6 / 2 ^ 33
  let p0 := 1048576 - adc_P
  let c1 := p0 * 2 ^ 31
  let c2 := c1 - a8
  let c3 := c2 * 3125
  let p := Int.tdiv c3 d
  let e1 := comp.dig_P9 * (p / 2 ^ 13)
  let e2 := e1 * (p / 2 ^ 13)
  let e3 := comp.dig_P8 * p
  let e4 := p + e2 / 2 ^ 25
  let e5 := e4 + e3 / 2 ^ 19
  let e6 := comp.dig_P7 * 2 ^ 4
  let e7 := e5 / 2 ^ 8 + e6
  (p0, [a1, a2, a3, a4, a5, a6, a7, a8, b1, b2, b3, b4, b5, b6, c1, c2, c3, p,
        e1, e2, e3, e4, e5, e6, e7])

/-- Specification §4.3, the divisor: `var1 = fine_temperature - 128000`,
`var1 = ((var1*var1*dig_P3) >> 8) + ((var1*dig_P2) << 12)`,
`var1 = (((1 << 47) + var1) * dig_P1) >> 33`, in 64-bit two's-complement arithmetic. -/
def spec_P_var1 (fine : Int) (cal : BME280_Compensations_t) : Int :=
  let v := wrap64 (fine - 128000)
  let w := wrap64 (asr (wrap64 (wrap64 (v * v) * cal.dig_P3)) 8
                   + wrap64 (wrap64 (v * cal.dig_P2) * 2 ^ 12))
  asr (wrap64 (wrap64 (2 ^ 47 + w) * cal.dig_P1)) 33

/-- Specification §4.3, the offset:
`var2 = var1*var1*dig_P6 + ((var1*dig_P5) << 17) + (dig_P4 << 35)` with
`var1 = fine_temperature - 128000`, in 64-bit two's-complement arithmetic. -/
def spec_P_var2 (fine : Int) (cal : BME280_Compensations_t) : Int :=
  let v := wrap64 (fine - 128000)
  wrap64 (wrap64 (wrap64 (wrap64 (v * v) * cal.dig_P6) + wrap64 (wrap64 (v * cal.dig_P5) * 2 ^ 17))
          + wrap64 (cal.dig_P4 * 2 ^ 35))

/-- Specification §4.3, the dividend `((p << 31) - var2) * 3125` of its division, for
the value `p0` of the step `p = 1048576 - adcP`, in 64-bit two's-complement arithmetic. -/
def spec_P_dividend (p0 var2 : Int) : Int :=
  wrap64 (wrap64 (wrap64 (p0 * 2 ^ 31) - var2) * 3125)

/-- Specification §4.3, the steps after `p = 1048576 - adcP` (whose value is `p0`):
`p = ((p << 31) - var2) * 3125 / var1`, `var1 = (dig_P9 * (p>>13) * (p>>13)) >> 25`,
`var2 = (dig_P8 * p) >> 19`, `p = ((p + var1 + var2) >> 8) + (dig_P7 << 4)`, in 64-bit
two's-complement arithmetic with division truncating toward zero. -/
def spec_P_tail (p0 var1 var2 : Int) (cal : BME280_Compensations_t) : Int :=
  let p := wrap64 (Int.tdiv (spec_P_dividend p0 var2) var1)
  let c1 := asr (wrap64 (wrap64 (cal.dig_P9 * asr p 13) * asr p 13)) 25
  let c2 := asr (wrap64 (cal.dig_P8 * p)) 19
  wrap64 (asr (wrap64 (wrap64 (p + c1) + c2)) 8 + wrap64 (cal.dig_P7 * 2 ^ 4))

/-- Specification §4.3 as written: every step, `p = 1048576 - adcP` included, is
evaluated in 64-bit two's-complement arithmetic. -/
def spec_P (adcP fine : Int) (cal : BME280_Compensations_t) : Int :=
  spec_P_tail (wrap64 (1048576 - adcP)) (spec_P_var1 fine cal) (spec_P_var2 fine cal) cal

/-- Specification §4.3 with the one step `p = 1048576 - adcP` evaluated in 32-bit
two's-complement arithmetic and then widened; every other step is 64-bit. -/
def spec_P_narrow_start (adcP fine : Int) (cal : BME280_Compensations_t) : Int :=
  spec_P_tail (wrap32 (1048576 - adcP)) (spec_P_var1 fine cal) (spec_P_var2 fine cal) cal

/-! ## Humidity compensation -/

/-- The value of `v_x1_u32r` in `BME280_compensate_H_int32` after the H1 correction and
before the two clamping statements (`BME280.c`, lines 89-101). -/
def BME280_H_preclamp (adc_H : Int) (comp : BME280_Compensations_t)
    (g : BME280_Globals) : Int :=
  let v_x1_u32r := sub32 g.t_fine 76800
  let v_x1_u32r :=
    mul32
      (sar32 (add32 (sub32 (sub32 (shl32 adc_H 14) (shl32 comp.dig_H4 20))
                           (mul32 comp.dig_H5 v_x1_u32r))
                    16384) 15)
      (sar32 (add32 (mul32 (add32 (sar32 (mul32 (sar32 (mul32 v_x1_u32r comp.dig_H6) 10)
                                                (add32 (sar32 (mul32 v_x1_u32r comp.dig_H3) 11)
                                                       32768)) 10)
                                  2097152)
                           comp.dig_H2)
                    8192) 14)
  sub32 v_x1_u32r
    (sar32 (mul32 (sar32 (mul32 (sar32 v_x1_u32r 15) (sar32 v_x1_u32r 15)) 7) comp.dig_H1) 4)

/-- The value of `v_x1_u32r` after the two clamping statements (lines 103-104), i.e. the
value that is shifted right by 12 to give the result. -/
def BME280_H_clamped (adc_H : Int) (comp : BME280_Compensations_t)
    (g : BME280_Globals) : Int :=
  let v_x1_u32r := BME280_H_preclamp adc_H comp g
  let v_x1_u32r := if v_x1_u32r < 0 then 0 else v_x1_u32r
  if v_x1_u32r > 419430400 then 419430400 else v_x1_u32r

/-- Embedding of `BME280_compensate_H_int32` (`BME280.c`, lines 85-107): returns the
humidity in 1/1024 %RH together with the (unchanged) file-scope state. -/
def BME280_compensate_H_int32 (adc_H : Int) (comp : BME280_Compensations_t)
    (g : BME280_Globals) : Int × BME280_Globals :=
  (toU32 (sar32 (BME280_H_clamped adc_H comp g) 12), g)

/-- Calibration used to reach both ends of the humidity clamp: `dig_H2 = 360`, the
given `dig_H4`, every other coefficient zero. -/
def clampComp (h4 : Int) : BME280_Compensations_t :=
  { dig_T1 := 0, dig_T2 := 0, dig_T3 := 0,
    dig_P1 := 0, dig_P2 := 0, dig_P3 := 0, dig_P4 := 0, dig_P5 := 0,
    dig_P6 := 0, dig_P7 := 0, dig_P8 := 0, dig_P9 := 0,
    dig_H1 := 0, dig_H2 := 360, dig_H3 := 0, dig_H4 := h4, dig_H5 := 0, dig_H6 := 0 }

/-! ## Calibration decoding -/

/-- The HAL status codes (`HAL_StatusTypeDef` of the STM32 HAL). -/
inductive HAL_StatusTypeDef where
  | HAL_OK
  | HAL_ERROR
  | HAL_BUSY
  | HAL_TIMEOUT
deriving DecidableEq

open HAL_StatusTypeDef

/-- The register shadow `BME280_RegMap_t`; every field is a `uint8_t`. -/
structure BME280_RegMap_t where
  id_reg : Nat
  reset_reg : Nat
  ctrl_hum_reg : Nat
  status_reg : Nat
  ctrl_meas_reg : Nat
  config_reg : Nat
  press_msb_reg : Nat
  press_lsb_reg : Nat
  press_xlsb_reg : Nat
  temp_msb_reg : Nat
  temp_lsb_reg : Nat
  temp_xlsb_reg : Nat
  hum_msb_reg : Nat
  hum_lsb_reg : Nat
deriving DecidableEq

/-- The driver handle `BME280_Handle_t`, without the bus pointer and without the three
floating-point outputs, which no integer-domain statement refers to. -/
structure BME280_Handle_t where
  I2C_address : Nat
  Comp : BME280_Compensations_t
  Reg : BME280_RegMap_t
deriving DecidableEq

/-- The external transport `HAL_I2C_Mem_Read_DMA`, taken as a synchronous primitive:
reading `n` bytes at device memory address `mem` yields a status and the bytes left in
the destination buffer. -/
abbrev I2C_Read := Nat → Nat → HAL_StatusTypeDef × List Nat

/-- Every element of a raw buffer is a byte. -/
def IsBytes (l : List Nat) : Prop := ∀ b ∈ l, b < 256

instance (l : List Nat) : Decidable (IsBytes l) := by unfold IsBytes; infer_instance

/-- Reduction of an integer to the range of `int16_t`. -/
def wrap16 (x : Int) : Int := (x + 32768) % 65536 - 32768

/-- Reduction of an integer to the range of `int8_t`. -/
def wrap8 (x : Int) : Int := (x + 128) % 256 - 128

/-- The helper `u16` (`BME280.c`, line 29): `(uint16_t)lsb | ((uint16_t)msb << 8)`,
converted to the `uint16_t` return type. -/
def u16 (lsb msb : Nat) : Nat := (lsb ||| (msb <<< 8)) % 65536

/-- The helper `s16` (`BME280.c`, line 30): `(int16_t) u16(lsb, msb)`. -/
def s16 (lsb msb : Nat) : Int := wrap16 (u16 lsb msb)

/-- Embedding of `BME280_CalCompensationParams` (`BME280.c`, lines 127-167).  The two
buffers start zeroed, so an index the transport did not fill reads as 0.  The three
temperature coefficients are computed into local variables (lines 140-142) that are
never stored into the handle. -/
def BME280_CalCompensationParams (hbme280 : BME280_Handle_t) (read : I2C_Read) :
    HAL_StatusTypeDef × BME280_Handle_t :=
  let rA := read 0x88 26
  let calibA := fun i => rA.2.getD i 0
  if rA.1 ≠ HAL_OK then (rA.1, hbme280) else
  let rB := read 0xE1 7
  let calibB := fun i => rB.2.getD i 0
  if rB.1 ≠ HAL_OK then (rB.1, hbme280) else
  let _dig_T1 : Int := u16 (calibA 0) (calibA 1)
  let _dig_T2 : Int := s16 (calibA 2) (calibA 3)
  let _dig_T3 : Int := s16 (calibA 4) (calibA 5)
  let comp : BME280_Compensations_t :=
    { hbme280.Comp with
      dig_P1 := u16 (calibA 6) (calibA 7)
      dig_P2 := s16 (calibA 8) (calibA 9)
      dig_P3 := s16 (calibA 10) (calibA 11)
      dig_P4 := s16 (calibA 12) (calibA 13)
      dig_P5 := s16 (calibA 14) (calibA 15)
      dig_P6 := s16 (calibA 16) (calibA 17)
      dig_P7 := s16 (calibA 18) (calibA 19)
      dig_P8 := s16 (calibA 20) (calibA 21)
      dig_P9 := s16 (calibA 22) (calibA 23)
      dig_H1 := calibA 25
      dig_H2 := s16 (calibB 0) (calibB 1)
      dig_H3 := calibB 2
      dig_H4 := wrap16 (((calibB 3 <<< 4) ||| (calibB 4 &&& 0x0F) : Nat) : Int)
      dig_H5 := wrap16 (((calibB 5 <<< 4) ||| (calibB 4 >>> 4) : Nat) : Int)
      dig_H6 := wrap8 (calibB 6) }
  (HAL_OK, { hbme280 with Comp := comp })

/-- The two's-complement reading of a 16-bit pattern `x < 65536`. -/
def twos16 (x : Nat) : Int := if x < 32768 then x else (x : Int) - 65536

/-- The two's-complement reading of an 8-bit pattern `x < 256`. -/
def twos8 (x : Nat) : Int := if x < 128 then x else (x : Int) - 256

/-- Sign extension of a 12-bit pattern `x < 4096` (specification §4.1). -/
def sign_extend12 (x : Nat) : Int := if x < 2048 then x else (x : Int) - 4096

/-- A transport that succeeds and delivers region `A` at 0x88 and region `B` at 0xE1. -/
def busOf (A B : List Nat) : I2C_Read :=
  fun mem _ => if mem = 0x88 then (HAL_OK, A) else (HAL_OK, B)

/-- The all-zero calibration block. -/
def zeroComp : BME280_Compensations_t :=
  { dig_T1 := 0, dig_T2 := 0, dig_T3 := 0,
    dig_P1 := 0, dig_P2 := 0, dig_P3 := 0, dig_P4 := 0, dig_P5 := 0,
    dig_P6 := 0, dig_P7 := 0, dig_P8 := 0, dig_P9 := 0,
    dig_H1 := 0, dig_H2 := 0, dig_H3 := 0, dig_H4 := 0, dig_H5 := 0, dig_H6 := 0 }

/-- A handle as it is before initialisation: zeroed calibration and register shadow. -/
def freshHandle : BME280_Handle_t :=
  { I2C_address := 0xEC, Comp := zeroComp,
    Reg := { id_reg := 0, reset_reg := 0, ctrl_hum_reg := 0, status_reg := 0,
             ctrl_meas_reg := 0, config_reg := 0, press_msb_reg := 0, press_lsb_reg := 0,
             press_xlsb_reg := 0, temp_msb_reg := 0, temp_lsb_reg := 0, temp_xlsb_reg := 0,
             hum_msb_reg := 0, hum_lsb_reg := 0 } }

/-- Region A (0x88..0xA1) of a device holding the datasheet reference temperature and
pressure coefficients, little-endian, with `dig_H1 = 75` in the last byte. -/
def refRegionA : List Nat :=
  [0x70, 0x6B, 0x43, 0x67, 0x18, 0xFC, 0x7D, 0x8E, 0x43, 0xD6, 0xD0, 0x0B, 0x27, 0x0B,
   0x8C, 0x00, 0xF9, 0xFF, 0x8C, 0x3C, 0xF8, 0xC6, 0x70, 0x17, 0x00, 0x4B]

/-- Region B (0xE1..0xE7) with both packed 12-bit humidity fields having their top bit
set: `0xE4 = 0x80`, `0xE5 = 0x21`, `0xE6 = 0xFF`. -/
def negRegionB : List Nat := [0x6A, 0x01, 0x00, 0x80, 0x21, 0xFF, 0x1E]

/-- Datasheet reference calibration (temperature and pressure coefficients; the
humidity coefficients are not part of the fixture and are left at zero). -/
def refComp : BME280_Compensations_t :=
  { dig_T1 := 27504, dig_T2 := 26435, dig_T3 := -1000,
    dig_P1 := 36477, dig_P2 := -10685, dig_P3 := 3024, dig_P4 := 2855, dig_P5 := 140,
    dig_P6 := -7, dig_P7 := 15500, dig_P8 := -14600, dig_P9 := 6000,
    dig_H1 := 0, dig_H2 := 0, dig_H3 := 0, dig_H4 := 0, dig_H5 := 0, dig_H6 := 0 }

/-! ## Initialisation and transport accesses -/

/-- The identity value that `BME280_Init` compares with 0x60: the content of
`hbme280->Reg.id_reg` after the one-byte read at 0xD0 (`BME280_ID_REG`).  The destination
of the read is the field itself, so a read that delivers no byte leaves the old value. -/
def BME280_Init_id_seen (hbme280 : BME280_Handle_t) (read : I2C_Read) : Nat :=
  (read 0xD0 1).2.getD 0 hbme280.Reg.id_reg

/-- Embedding of `BME280_Init` (`BME280.c`, lines 114-120).  The status of the identity
read is not looked at; only the byte left in `Reg.id_reg` is. -/
def BME280_Init (hbme280 : BME280_Handle_t) (read : I2C_Read) :
    HAL_StatusTypeDef × BME280_Handle_t :=
  let rID := read 0xD0 1
  let hbme280 : BME280_Handle_t :=
    { hbme280 with Reg := { hbme280.Reg with id_reg := rID.2.getD 0 hbme280.Reg.id_reg } }
  if hbme280.Reg.id_reg ≠ 0x60 then (HAL_ERROR, hbme280)
  else BME280_CalCompensationParams hbme280 read

/-- The transport reads issued by `BME280_CalCompensationParams`, as (memory address,
length) pairs in program order: region A at line 134 and, only when that read returned
`HAL_OK`, region B at line 136. -/
def BME280_CalCompensationParams_reads (read : I2C_Read) : List (Nat × Nat) :=
  if (read 0x88 26).1 ≠ HAL_OK then [(0x88, 26)] else [(0x88, 26), (0xE1, 7)]

/-- The transport reads issued by `BME280_Init`, in program order: the identity read at
line 116 and, only when the identity check of line 117 passes, those of
`BME280_CalCompensationParams`. -/
def BME280_Init_reads (hbme280 : BME280_Handle_t) (read : I2C_Read) : List (Nat × Nat) :=
  (0xD0, 1) ::
    (if BME280_Init_id_seen hbme280 read ≠ 0x60 then []
     else BME280_CalCompensationParams_reads read)

/-- Re-encoding of register 0xE4 from a decoded coefficient: `(dig_H4 >> 4) & 0xFF`. -/
def reencode_E4 (dig_H4 : Int) : Int := Int.land (dig_H4 >>> (4 : Nat)) 0xFF

/-- Re-encoding of the shared register 0xE5 from the two decoded coefficients:
`(dig_H4 & 0x0F) | ((dig_H5 & 0x0F) << 4)`. -/
def reencode_E5 (dig_H4 dig_H5 : Int) : Int :=
  Int.lor (Int.land dig_H4 0x0F) (Int.land dig_H5 0x0F * 2 ^ 4)

/-- Re-encoding of register 0xE6 from a decoded coefficient: `(dig_H5 >> 4) & 0xFF`. -/
def reencode_E6 (dig_H5 : Int) : Int := Int.land (dig_H5 >>> (4 : Nat)) 0xFF

/-- Region B whose packed bytes are the synthetic triple `0x12`, `0xAB`, `0x34`. -/
def nibbleRegionB : List Nat := [0x6A, 0x01, 0x00, 0x12, 0xAB, 0x34, 0x1E]

/-- A region of `n` zero bytes. -/
def zeroRegion (n : Nat) : List Nat := List.replicate n 0

/-- A transport on which the read of region A fails with `sA`. -/
def busFailA (sA : HAL_StatusTypeDef) : I2C_Read :=
  fun mem _ => if mem = 0x88 then (sA, []) else (HAL_OK, negRegionB)

/-- A transport on which region A is read successfully and the read of region B fails
with `sB`. -/
def busFailB (sB : HAL_StatusTypeDef) : I2C_Read :=
  fun mem _ => if mem = 0x88 then (HAL_OK, refRegionA) else (sB, [])

/-- A transport for a whole device: the identity register delivers `id`, the calibration
regions deliver `A` and `B`, every read succeeds. -/
def busDevice (id : Nat) (A B : List Nat) : I2C_Read :=
  fun mem _ =>
    if mem = 0xD0 then (HAL_OK, [id]) else if mem = 0x88 then (HAL_OK, A) else (HAL_OK, B)

/-- The datasheet reference calibration completed with humidity coefficients
(`dig_H1 = 75`, `dig_H2 = 362`, `dig_H3 = 0`, `dig_H4 = 324`, `dig_H5 = 50`,
`dig_H6 = 30`). -/
def refCompH : BME280_Compensations_t :=
  { refComp with
    dig_H1 := 75, dig_H2 := 362, dig_H3 := 0, dig_H4 := 324, dig_H5 := 50, dig_H6 := 30 }

/-! ## Call sequences and exact temperature arithmetic -/

/-- A call of one of the two compensators that read the fine temperature, with its
arguments. -/
inductive CompCall where
  | P (adc_P : Int) (comp : BME280_Compensations_t)
  | H (adc_H : Int) (comp : BME280_Compensations_t)

/-- Executing one call on the file-scope state; `none` when the call does not return. -/
def CompCall.run : CompCall → BME280_Globals → Option (Int × BME280_Globals)
  | .P adc_P comp, g => BME280_compensate_P_int64 adc_P comp g
  | .H adc_H comp, g => some (BME280_compensate_H_int32 adc_H comp g)

/-- The file-scope state after executing a sequence of calls, first to last; `none` when
one of the calls does not return. -/
def runCalls : List CompCall → BME280_Globals → Option BME280_Globals
  | [], g => some g
  | c :: cs, g => (c.run g).bind fun r => runCalls cs r.2

/-- The product `((adc_T >> 3) - (dig_T1 << 1)) * dig_T2` of line 43, over unbounded
integers. -/
def BME280_T_product1 (adc_T : Int) (comp : BME280_Compensations_t) : Int :=
  (adc_T / 2 ^ 3 - comp.dig_T1 * 2 ^ 1) * comp.dig_T2

/-- The square `((adc_T >> 4) - dig_T1) * ((adc_T >> 4) - dig_T1)` of lines 44-45, over
unbounded integers. -/
def BME280_T_square (adc_T : Int) (comp : BME280_Compensations_t) : Int :=
  (adc_T / 2 ^ 4 - comp.dig_T1) * (adc_T / 2 ^ 4 - comp.dig_T1)

/-- The product `(square >> 12) * dig_T3` of lines 44-46, over unbounded integers. -/
def BME280_T_product2 (adc_T : Int) (comp : BME280_Compensations_t) : Int :=
  BME280_T_square adc_T comp / 2 ^ 12 * comp.dig_T3

/-- The formula of `BME280_compensate_T_int32` evaluated over unbounded integers (right
shift is division rounding toward minus infinity): the returned value and the fine
temperature. -/
def BME280_T_exact (adc_T : Int) (comp : BME280_Compensations_t) : Int × Int :=
  let var1 := BME280_T_product1 adc_T comp / 2 ^ 11
  let var2 := BME280_T_product2 adc_T comp / 2 ^ 14
  let t_fine := var1 + var2
  ((t_fine * 5 + 128) / 2 ^ 8, t_fine)

/-- The exact (unreduced) result of every 32-bit operation of
`BME280_compensate_T_int32` that can leave the `int32_t` range (shift left, subtraction,
multiplication, addition), in evaluation order, computed in unbounded integers. -/
def BME280_T_exact_intermediates (adc_T : Int) (comp : BME280_Compensations_t) : List Int :=
  let t_fine := (BME280_T_exact adc_T comp).2
  [comp.dig_T1 * 2 ^ 1,
   adc_T / 2 ^ 3 - comp.dig_T1 * 2 ^ 1,
   BME280_T_product1 adc_T comp,
   adc_T / 2 ^ 4 - comp.dig_T1,
   BME280_T_square adc_T comp,
   BME280_T_product2 adc_T comp,
   t_fine,
   t_fine * 5,
   t_fine * 5 + 128]

/-- Calibration block with `dig_T2 = 32767` and every other coefficient zero. -/
def steepComp : BME280_Compensations_t := { zeroComp with dig_T2 := 32767 }

/-- A calibration block, with every field in the range of its type, for which the
division of line 72 has no result at fine temperature 1073935360 and raw count 1048574:
`dig_P1 = 1`, `dig_P2 = -32`, `dig_P3 = 0`, `dig_P4 = 14336`, `dig_P5 = -24573`,
`dig_P6 = -5`. -/
def overflowComp : BME280_Compensations_t :=
  { refCompH with
    dig_P1 := 1, dig_P2 := -32, dig_P3 := 0, dig_P4 := 14336, dig_P5 := -24573, dig_P6 := -5 }

/-! ## Reading a sample -/

/-- Conversion of a non-negative `int` to `uint32_t`: the low 32 bits. -/
def toU32n (x : Nat) : Nat := x % 4294967296

/-- What a call of one of the three sample functions leaves behind: the status returned;
the destination argument handed to the transport; the raw count assembled at line 183,
201 or 219 and the integer result of the compensation, whose quotient by 100, 256 or
1024 is stored in the handle as a `float` (both absent when the function returned at
line 181, 199 or 217); and the file-scope state.  The register shadow and the
calibration block of the handle are not assigned by these functions. -/
structure BME280_Sample where
  status : HAL_StatusTypeDef
  dest : Nat
  adc : Option Int
  compensated : Option Int
  g : BME280_Globals
deriving DecidableEq

/-- Embedding of `BME280_GetTemp` (`BME280.c`, lines 175-186).  The destination argument
of the read at line 180 is `hbme280->Reg.temp_msb_reg`, the value of the field, not its
address (`BME280_Init` passes `&hbme280->Reg.id_reg` at line 116).  The three bytes that
the transport delivers therefore go to the address whose number is that value, below
256, and not into the handle: the register shadow is after the read what it was before,
and line 183 assembles the count from it. -/
def BME280_GetTemp (hbme280 : BME280_Handle_t) (read : I2C_Read) (g : BME280_Globals) :
    BME280_Sample :=
  let dest := hbme280.Reg.temp_msb_reg
  let status := (read 0xFA 3).1
  if status ≠ HAL_OK then
    { status := status, dest := dest, adc := none, compensated := none, g := g }
  else
    let adc_T := wrap32 ((toU32n (hbme280.Reg.temp_msb_reg <<< 12)
      ||| toU32n (hbme280.Reg.temp_lsb_reg <<< 4)
      ||| (toU32n hbme280.Reg.temp_xlsb_reg >>> 4) : Nat) : Int)
    let r := BME280_compensate_T_int32 adc_T hbme280.Comp g
    { status := HAL_OK, dest := dest, adc := some adc_T, compensated := some r.1, g := r.2 }

/-- Embedding of `BME280_GetPress` (`BME280.c`, lines 193-204); the destination argument
of the read at line 198 is the value of `hbme280->Reg.press_msb_reg`.  There is no
outcome when the pressure compensator does not return. -/
def BME280_GetPress (hbme280 : BME280_Handle_t) (read : I2C_Read) (g : BME280_Globals) :
    Option BME280_Sample :=
  let dest := hbme280.Reg.press_msb_reg
  let status := (read 0xF7 3).1
  if status ≠ HAL_OK then
    some { status := status, dest := dest, adc := none, compensated := none, g := g }
  else
    let adc_P := wrap32 ((toU32n (hbme280.Reg.press_msb_reg <<< 12)
      ||| toU32n (hbme280.Reg.press_lsb_reg <<< 4)
      ||| (toU32n hbme280.Reg.press_xlsb_reg >>> 4) : Nat) : Int)
    (BME280_compensate_P_int64 adc_P hbme280.Comp g).bind fun r =>
      some { status := HAL_OK, dest := dest, adc := some adc_P, compensated := some r.1,
             g := r.2 }

/-- Embedding of `BME280_GetHum` (`BME280.c`, lines 211-222); the destination argument
of the read at line 216 is the value of `hbme280->Reg.hum_msb_reg`. -/
def BME280_GetHum (hbme280 : BME280_Handle_t) (read : I2C_Read) (g : BME280_Globals) :
    BME280_Sample :=
  let dest := hbme280.Reg.hum_msb_reg
  let status := (read 0xFD 2).1
  if status ≠ HAL_OK then
    { status := status, dest := dest, adc := none, compensated := none, g := g }
  else
    let adc_H := wrap32 ((toU32n (hbme280.Reg.hum_msb_reg <<< 8)
      ||| toU32n hbme280.Reg.hum_lsb_reg : Nat) : Int)
    let r := BME280_compensate_H_int32 adc_H hbme280.Comp g
    { status := HAL_OK, dest := dest, adc := some adc_H, compensated := some r.1, g := r.2 }

/-- Every field of the register shadow is a byte. -/
def BME280_RegMap_t.WF (r : BME280_RegMap_t) : Prop :=
  r.id_reg < 256 ∧ r.reset_reg < 256 ∧ r.ctrl_hum_reg < 256 ∧ r.status_reg < 256 ∧
  r.ctrl_meas_reg < 256 ∧ r.config_reg < 256 ∧ r.press_msb_reg < 256 ∧
  r.press_lsb_reg < 256 ∧ r.press_xlsb_reg < 256 ∧ r.temp_msb_reg < 256 ∧
  r.temp_lsb_reg < 256 ∧ r.temp_xlsb_reg < 256 ∧ r.hum_msb_reg < 256 ∧ r.hum_lsb_reg < 256

instance (r : BME280_RegMap_t) : Decidable r.WF := by
  unfold BME280_RegMap_t.WF; infer_instance

/-- The register shadow holding the datasheet reference sample: temperature bytes
`7E ED 00` (519888), pressure bytes `65 5A C0` (415148), humidity bytes `82 EF` (33519). -/
def refRegs : BME280_RegMap_t :=
  { freshHandle.Reg with
    press_msb_reg := 0x65, press_lsb_reg := 0x5A, press_xlsb_reg := 0xC0,
    temp_msb_reg := 0x7E, temp_lsb_reg := 0xED, temp_xlsb_reg := 0x00,
    hum_msb_reg := 0x82, hum_lsb_reg := 0xEF }

/-- A transport on which every read succeeds and the sample registers deliver the given
bytes: `T` at 0xFA, `P` at 0xF7, `H` at 0xFD. -/
def sampleBus (T P H : List Nat) : I2C_Read :=
  fun mem _ =>
    if mem = 0xFA then (HAL_OK, T) else if mem = 0xF7 then (HAL_OK, P) else (HAL_OK, H)

/-- An initialised handle: reference calibration, zeroed register shadow. -/
def readyHandle : BME280_Handle_t := { freshHandle with Comp := refCompH }

end BME280

/-! # DS3231 real-time clock: BCD helpers (`Drivers/DS3231-RTC/DS3231.h`) -/

namespace DS3231

/-- The conversion `decToBCD` (`DS3231.h`, line 107):
`(((value / 10) << 4) | (value % 10))`, evaluated in `int`. -/
def decToBCD (value : Nat) : Nat := ((value / 10) <<< 4) ||| (value % 10)

/-- The conversion `BCDToDec` (`DS3231.h`, line 108):
`(((value >> 4) * 10) + (value & 0x0F))`, evaluated in `int`. -/
def BCDToDec (value : Nat) : Nat := ((value >>> 4) * 10) + (value &&& 0x0F)

/-! ## Data model (`DS3231.h`) -/

open BME280 BME280.HAL_StatusTypeDef

/-- Conversion to `uint8_t` on assignment: the low 8 bits. -/
def toU8 (x : Nat) : Nat := x % 256

/-- The time of day `ds3231_time_t`; every field is a `uint8_t`. -/
structure ds3231_time_t where
  hours : Nat
  minutes : Nat
  seconds : Nat
deriving DecidableEq

/-- The calendar date `ds3231_data_t`; every field is a `uint8_t`. -/
structure ds3231_data_t where
  date : Nat
  month : Nat
  year : Nat
deriving DecidableEq

/-- The alarm setting `sAlram_t`.  `dayOfWeek` has the enumeration type `DOW_t`
(`Sunday = 1` .. `Saturday = 7`); the code range-checks it and assigns it from raw
register bytes, so it is kept as a number. -/
structure sAlram_t where
  hours : Nat
  minutes : Nat
  seconds : Nat
  dayOfWeek : Nat
  date : Nat
deriving DecidableEq

/-- The alarm repetition mode `sMode_t`. -/
inductive sMode_t where
  | EveryMinute
  | EveryHour
  | EveryDay
  | Once
  | EveryWeek
deriving DecidableEq

/-- The driver handle `DS3231_Handle_t`, without the bus pointer and the floating-point
temperature.  `Reg` is the 19-byte register buffer, indexed by register address
(0x00 .. 0x12). -/
structure DS3231_Handle_t where
  I2C_address : Nat
  time : ds3231_time_t
  date : ds3231_data_t
  dayOfWeek : Nat
  Reg : Nat → Nat
  alarm1 : sAlram_t
  alarm2 : sAlram_t

/-- The external blocking transport: `HAL_I2C_Mem_Read` of `n` bytes at a register
address yields a status and the bytes left in the destination buffer;
`HAL_I2C_Mem_Write` of some bytes at a register address yields a status. -/
structure DS3231_Bus where
  read : Nat → Nat → HAL_StatusTypeDef × List Nat
  write : Nat → List Nat → HAL_StatusTypeDef

/-- A device write as the driver issues it: register address and data bytes. -/
abbrev DeviceWrite := Nat × List Nat

/-- Assignment `DS3231_Reg[i] = v` to the register buffer. -/
def setReg (Reg : Nat → Nat) (i v : Nat) : Nat → Nat := fun j => if j = i then v else Reg j

/-! ## Setting time and date -/

/-- Embedding of `DS3231_SetTime` (`DS3231.c`, lines 53-71): the status, the handle and
the device writes issued. -/
def DS3231_SetTime (handle : DS3231_Handle_t) (bus : DS3231_Bus) :
    HAL_StatusTypeDef × DS3231_Handle_t × List DeviceWrite :=
  let time := handle.time
  if time.hours > 23 ∨ time.minutes > 59 ∨ time.seconds > 59 then
    (HAL_ERROR, handle, [])
  else
    let Reg := setReg handle.Reg 0x00 (toU8 (decToBCD time.seconds))
    let Reg := setReg Reg 0x01 (toU8 (decToBCD time.minutes))
    let Reg := setReg Reg 0x02 (toU8 (decToBCD time.hours))
    let data := [Reg 0x00, Reg 0x01, Reg 0x02]
    (bus.write 0x00 data, { handle with Reg := Reg }, [(0x00, data)])

/-- Embedding of `DS3231_SetDate` (`DS3231.c`, lines 74-90): the status, the handle and
the device writes issued. -/
def DS3231_SetDate (handle : DS3231_Handle_t) (bus : DS3231_Bus) :
    HAL_StatusTypeDef × DS3231_Handle_t × List DeviceWrite :=
  let date := handle.date
  if date.date > 31 ∨ date.month < 1 ∨ date.month > 12 ∨ date.year > 99 then
    (HAL_ERROR, handle, [])
  else
    let Reg := setReg handle.Reg 0x04 (toU8 (decToBCD date.date))
    let Reg := setReg Reg 0x05 (toU8 (decToBCD date.month))
    let Reg := setReg Reg 0x06 (toU8 (decToBCD date.year))
    let data := [Reg 0x04, Reg 0x05, Reg 0x06]
    (bus.write 0x04 data, { handle with Reg := Reg }, [(0x04, data)])

/-- A transport on which every read delivers the given bytes and every transfer
succeeds. -/
def okBus (bytes : List Nat) : DS3231_Bus :=
  { read := fun _ _ => (HAL_OK, bytes), write := fun _ _ => HAL_OK }

/-- A handle with the given time, date and first alarm, the given control byte in the
register buffer and every other register byte zero. -/
def mkHandle (time : ds3231_time_t) (date : ds3231_data_t) (alarm1 : sAlram_t)
    (control : Nat) : DS3231_Handle_t :=
  { I2C_address := 0xD0, time := time, date := date, dayOfWeek := 1,
    Reg := fun j => if j = 0x0E then control else 0,
    alarm1 := alarm1, alarm2 := alarm1 }

/-- A valid alarm setting: 12:30:15, Monday, the 1st. -/
def sampleAlarm : sAlram_t :=
  { hours := 12, minutes := 30, seconds := 15, dayOfWeek := 2, date := 1 }

/-! ## Alarms -/

/-- Embedding of `DS3231_CLearAlarmsFlags` (`DS3231.c`, lines 378-388).  The status
register is read into `Reg[0x0F]`; on success its bits 0 and 1 are cleared and the byte
is written back, the status of that write being ignored. -/
def DS3231_CLearAlarmsFlags (handle : DS3231_Handle_t) (bus : DS3231_Bus) :
    HAL_StatusTypeDef × DS3231_Handle_t × List DeviceWrite :=
  let r := bus.read 0x0F 1
  let Reg := setReg handle.Reg 0x0F (r.2.getD 0 (handle.Reg 0x0F))
  if r.1 = HAL_OK then
    let Reg := setReg Reg 0x0F (toU8 (Reg 0x0F &&& 0xFFFFFFFE))
    let Reg := setReg Reg 0x0F (toU8 (Reg 0x0F &&& 0xFFFFFFFD))
    (HAL_OK, { handle with Reg := Reg }, [(0x0F, [Reg 0x0F])])
  else
    (HAL_ERROR, { handle with Reg := Reg }, [])

/-- The mask bytes `A1M1`, `A1M2`, `A1M3` and the day/date register byte that the
`switch` of `DS3231_SetAlarm1` (lines 116-160) selects for a mode. -/
def alarm1_masks (mode : sMode_t) (alarm : sAlram_t) : Nat × Nat × Nat × Nat :=
  match mode with
  | .EveryMinute => (0x00, 0x80, 0x80, toU8 0x80)
  | .EveryHour => (0x00, 0x00, 0x80, toU8 0x80)
  | .EveryDay => (0x00, 0x00, 0x00, toU8 0x80)
  | .Once =>
      let temp := toU8 ((alarm.date / 10) <<< 4)
      (0x00, 0x00, 0x00, toU8 (0x00 ||| temp ||| (alarm.date % 10)))
  | .EveryWeek => (0x00, 0x00, 0x00, toU8 (0x00 ||| 0x40 ||| alarm.dayOfWeek))

/-- Embedding of `DS3231_SetAlarm1` (`DS3231.c`, lines 104-183): the status, the handle
and the device writes issued.  Line 175 assigns the control byte. -/
def DS3231_SetAlarm1 (mode : sMode_t) (handle : DS3231_Handle_t) (bus : DS3231_Bus) :
    HAL_StatusTypeDef × DS3231_Handle_t × List DeviceWrite :=
  let alarm := handle.alarm1
  if alarm.hours > 23 ∨ alarm.minutes > 59 ∨ alarm.seconds > 59 ∨
      (alarm.dayOfWeek < 1 ∨ alarm.dayOfWeek > 7) ∨ alarm.date < 1 ∨ alarm.date > 31 then
    (HAL_ERROR, handle, [])
  else
    let m := alarm1_masks mode alarm
    let Reg := setReg handle.Reg 0x0A m.2.2.2
    let Reg := setReg Reg 0x07 (toU8 (m.1 ||| decToBCD alarm.seconds))
    let Reg := setReg Reg 0x08 (toU8 (m.2.1 ||| decToBCD alarm.minutes))
    let Reg := setReg Reg 0x09 (toU8 (m.2.2.1 ||| decToBCD alarm.hours))
    let c := DS3231_CLearAlarmsFlags { handle with Reg := Reg } bus
    let handle := c.2.1
    let data := [handle.Reg 0x07, handle.Reg 0x08, handle.Reg 0x09, handle.Reg 0x0A]
    let status := bus.write 0x07 data
    if status ≠ HAL_OK then (status, handle, c.2.2 ++ [(0x07, data)])
    else
      let handle := { handle with Reg := setReg handle.Reg 0x0E (0x04 ||| 0x01) }
      let status := bus.write 0x0E [handle.Reg 0x0E]
      if status ≠ HAL_OK then
        (status, handle, c.2.2 ++ [(0x07, data), (0x0E, [handle.Reg 0x0E])])
      else (HAL_OK, handle, c.2.2 ++ [(0x07, data), (0x0E, [handle.Reg 0x0E])])

/-- The mask bytes `A2M2`, `A2M3` and the day/date register byte that the `switch` of
`DS3231_SetAlarm2` (lines 197-237) selects for a mode. -/
def alarm2_masks (mode : sMode_t) (alarm : sAlram_t) : Nat × Nat × Nat :=
  match mode with
  | .EveryMinute => (0x80, 0x80, toU8 0x80)
  | .EveryHour => (0x00, 0x80, toU8 0x80)
  | .EveryDay => (0x00, 0x00, toU8 0x80)
  | .Once =>
      let temp := toU8 ((alarm.date / 10) <<< 4)
      (0x00, 0x00, toU8 (0x00 ||| temp ||| (alarm.date % 10)))
  | .EveryWeek => (0x00, 0x00, toU8 (0x00 ||| 0x40 ||| alarm.dayOfWeek))

/-- Embedding of `DS3231_SetAlarm2` (`DS3231.c`, lines 186-257): the status, the handle
and the device writes issued.  Line 246 ORs the enable bits into the control byte. -/
def DS3231_SetAlarm2 (mode : sMode_t) (handle : DS3231_Handle_t) (bus : DS3231_Bus) :
    HAL_StatusTypeDef × DS3231_Handle_t × List DeviceWrite :=
  let alarm := handle.alarm2
  if alarm.hours > 23 ∨ alarm.minutes > 59 ∨
      (alarm.dayOfWeek < 1 ∨ alarm.dayOfWeek > 7) ∨ alarm.date < 1 ∨ alarm.date > 31 then
    (HAL_ERROR, handle, [])
  else
    let m := alarm2_masks mode alarm
    let Reg := setReg handle.Reg 0x0D m.2.2
    let Reg := setReg Reg 0x0B (toU8 (m.1 ||| decToBCD alarm.minutes))
    let Reg := setReg Reg 0x0C (toU8 (m.2.1 ||| decToBCD alarm.hours))
    let c := DS3231_CLearAlarmsFlags { handle with Reg := Reg } bus
    let handle := c.2.1
    let handle :=
      { handle with Reg := setReg handle.Reg 0x0E (toU8 (handle.Reg 0x0E ||| (0x04 ||| 0x02))) }
    let status := bus.write 0x0E [handle.Reg 0x0E]
    if status ≠ HAL_OK then (status, handle, c.2.2 ++ [(0x0E, [handle.Reg 0x0E])])
    else
      let data := [handle.Reg 0x0B, handle.Reg 0x0C, handle.Reg 0x0D]
      let status := bus.write 0x0B data
      if status ≠ HAL_OK then
        (status, handle, c.2.2 ++ [(0x0E, [handle.Reg 0x0E]), (0x0B, data)])
      else (HAL_OK, handle, c.2.2 ++ [(0x0E, [handle.Reg 0x0E]), (0x0B, data)])

/-- Embedding of `DS3231_GetAlarm1` (`DS3231.c`, lines 329-343): four bytes are read to
`Reg[0x07 .. 0x0A]` and, on success, decoded into `alarm1`. -/
def DS3231_GetAlarm1 (handle : DS3231_Handle_t) (bus : DS3231_Bus) :
    HAL_StatusTypeDef × DS3231_Handle_t :=
  let r := bus.read 0x07 4
  let Reg := setReg handle.Reg 0x07 (r.2.getD 0 (handle.Reg 0x07))
  let Reg := setReg Reg 0x08 (r.2.getD 1 (handle.Reg 0x08))
  let Reg := setReg Reg 0x09 (r.2.getD 2 (handle.Reg 0x09))
  let Reg := setReg Reg 0x0A (r.2.getD 3 (handle.Reg 0x0A))
  let handle := { handle with Reg := Reg }
  if r.1 = HAL_OK then
    let alarm : sAlram_t :=
      { seconds := toU8 ((Reg 0x07 &&& 0x0F) + ((Reg 0x07 >>> 4) * 10))
        minutes := toU8 ((Reg 0x08 &&& 0x0F) + ((Reg 0x08 >>> 4) * 10))
        hours := toU8 ((Reg 0x09 &&& 0x0F) + ((Reg 0x09 >>> 4) * 10))
        dayOfWeek := Reg 0x0A
        date := toU8 ((Reg 0x0A &&& 0x0F) + ((Reg 0x0A >>> 4) * 10)) }
    (r.1, { handle with alarm1 := alarm })
  else (r.1, handle)

/-! ## Temperature read-out and square-wave output -/

/-- Embedding of `DS3231_GetTemp` (`DS3231.c`, lines 313-326): two bytes are read to
`Reg[0x11 .. 0x12]`; the third component is the `int16_t raw_value` that line 322 divides
by `4.0f` (its initial value 0 when the read fails).  In line 321 the cast applies to
`Reg[0x11] << 2` only, and the result of the OR is converted to `int16_t` on
assignment. -/
def DS3231_GetTemp (handle : DS3231_Handle_t) (bus : DS3231_Bus) :
    HAL_StatusTypeDef × DS3231_Handle_t × Int :=
  let r := bus.read 0x11 2
  let Reg := setReg handle.Reg 0x11 (r.2.getD 0 (handle.Reg 0x11))
  let Reg := setReg Reg 0x12 (r.2.getD 1 (handle.Reg 0x12))
  let handle := { handle with Reg := Reg }
  if r.1 = HAL_OK then
    let raw_value :=
      wrap16 (Int.lor (wrap16 ((Reg 0x11 <<< 2 : Nat) : Int)) ((Reg 0x12 >>> 6 : Nat) : Int))
    (HAL_OK, handle, raw_value)
  else (r.1, handle, 0)

/-- The 10-bit two's-complement number with bit pattern `x < 1024`. -/
def twos10 (x : Nat) : Int := if x < 512 then x else (x : Int) - 1024

/-- Embedding of `DS3231_OutputPWM` (`DS3231.c`, lines 392-419): the status, the handle
and the device writes issued.  The validation of line 409 joins its four comparisons
with `&&`. -/
def DS3231_OutputPWM (handle : DS3231_Handle_t) (RS2 RS1 : Nat) (bus : DS3231_Bus) :
    HAL_StatusTypeDef × DS3231_Handle_t × List DeviceWrite :=
  if RS1 ≠ 0 ∧ RS1 ≠ 1 ∧ RS2 ≠ 0 ∧ RS2 ≠ 1 then
    (HAL_ERROR, handle, [])
  else
    let Reg := setReg handle.Reg 0x0E (toU8 (handle.Reg 0x0E &&& 0xFFFFFFFB))
    let Reg := setReg Reg 0x0E (toU8 ((RS1 <<< 3) ||| (RS2 <<< 4)))
    (bus.write 0x0E [Reg 0x0E], { handle with Reg := Reg }, [(0x0E, [Reg 0x0E])])

/-- The four Alarm-1 register bytes `Reg[0x07 .. 0x0A]` of a handle. -/
def alarm1_bytes (handle : DS3231_Handle_t) : List Nat :=
  [handle.Reg 0x07, handle.Reg 0x08, handle.Reg 0x09, handle.Reg 0x0A]

/-- The time 12:00:00. -/
def noon : ds3231_time_t := { hours := 12, minutes := 0, seconds := 0 }

/-- The date 1 January 2000. -/
def newYear : ds3231_data_t := { date := 1, month := 1, year := 0 }

end DS3231

/-! # ADS1115 analog-to-digital converter (`Drivers/ADS1115-ADC-16bit`) -/

namespace ADS1115

open BME280 BME280.HAL_StatusTypeDef

/-- Conversion to `uint16_t` on assignment: the low 16 bits. -/
def toU16 (x : Nat) : Nat := x % 65536

/-- The driver handle `ADS1115_Handle_t`, without the bus pointer.  `channel` has the
enumeration type `sChannel_t` (`DIF_A0_A3 = 1` .. `Ain3 = 7`); `Reg` is the buffer of four
`uint16_t` registers, indexed by register address. -/
structure ADS1115_Handle_t where
  I2C_address : Nat
  channel : Nat
  ptr_reg : Nat
  Reg : Nat → Nat

/-- The external transport: `HAL_I2C_Master_Transmit_DMA` of some bytes yields a status;
`HAL_I2C_Master_Receive_DMA` of `n` bytes yields a status and the bytes left in the
destination buffer. -/
structure ADS1115_Bus where
  transmit : List Nat → HAL_StatusTypeDef
  receive : Nat → HAL_StatusTypeDef × List Nat

/-- The two bytes of a `uint16_t` object in memory, lowest address first (the target is
little-endian). -/
def u16_bytes (v : Nat) : List Nat := [v % 256, v / 256 % 256]

/-- Assignment `Reg[i] = v` to the register buffer. -/
def setReg (Reg : Nat → Nat) (i v : Nat) : Nat → Nat := fun j => if j = i then v else Reg j

/-- Embedding of `ADS1115_ReadConfigReg` (`ADS1115.c`, lines 54-62): the status, the
handle and the transmissions issued.  The two received bytes overwrite the two bytes of
`Reg[ADS1115_REG_CONFIG]`; a byte that is not delivered keeps its old value. -/
def ADS1115_ReadConfigReg (hads1115 : ADS1115_Handle_t) (bus : ADS1115_Bus) :
    HAL_StatusTypeDef × ADS1115_Handle_t × List (List Nat) :=
  let hads1115 := { hads1115 with ptr_reg := 0x01 }
  let status := bus.transmit [hads1115.ptr_reg]
  if status ≠ HAL_OK then (status, hads1115, [[hads1115.ptr_reg]])
  else
    let r := bus.receive 2
    let lo := r.2.getD 0 (hads1115.Reg 0x01 % 256)
    let hi := r.2.getD 1 (hads1115.Reg 0x01 / 256 % 256)
    (r.1, { hads1115 with Reg := setReg hads1115.Reg 0x01 (lo + 256 * hi) },
      [[hads1115.ptr_reg]])

/-- Embedding of `ADS1115_SetChannel` (`ADS1115.c`, lines 88-104): the status, the handle
and the transmissions issued.  The local `status` is tested at line 92 before anything
is assigned to it (the result of `ADS1115_ReadConfigReg` is discarded), so its value
there is the parameter `status0`.  `HAL_Delay` has no effect on the state. -/
def ADS1115_SetChannel (hads1115 : ADS1115_Handle_t) (channel : Nat) (bus : ADS1115_Bus)
    (status0 : HAL_StatusTypeDef) : HAL_StatusTypeDef × ADS1115_Handle_t × List (List Nat) :=
  let rc := ADS1115_ReadConfigReg hads1115 bus
  let hads1115 := rc.2.1
  if status0 ≠ HAL_OK then (status0, hads1115, rc.2.2)
  else
    let Reg := setReg hads1115.Reg 0x01 (toU16 (hads1115.Reg 0x01 &&& 0xFFFF8FFF))
    let Reg := setReg Reg 0x01 (toU16 (Reg 0x01 ||| (toU16 channel <<< 12)))
    let hads1115 := { hads1115 with Reg := Reg, ptr_reg := 0x01 }
    let status := bus.transmit [hads1115.ptr_reg]
    if status ≠ HAL_OK then (status, hads1115, rc.2.2 ++ [[hads1115.ptr_reg]])
    else
      let status := bus.transmit (u16_bytes (hads1115.Reg 0x01))
      (status, hads1115, rc.2.2 ++ [[hads1115.ptr_reg], u16_bytes (hads1115.Reg 0x01)])

/-- A transport on which every transfer succeeds and a receive delivers the given
bytes. -/
def okBus (bytes : List Nat) : ADS1115_Bus :=
  { transmit := fun _ => HAL_OK, receive := fun _ => (HAL_OK, bytes) }

/-- A handle with a zeroed register buffer. -/
def blankHandle : ADS1115_Handle_t :=
  { I2C_address := 0x90, channel := 4, ptr_reg := 0, Reg := fun _ => 0 }

end ADS1115

namespace BME280

open HAL_StatusTypeDef

/-! ## Basic facts about the fixed-width operations -/

theorem wrap32_inS32 (x : Int) : InS32 (wrap32 x) := by
  unfold InS32 wrap32; omega

theorem wrap64_inS64 (x : Int) : InS64 (wrap64 x) := by
  unfold InS64 wrap64; omega

theorem wrap32_of_inS32 {x : Int} (h : InS32 x) : wrap32 x = x := by
  unfold InS32 at h; unfold wrap32; omega

theorem wrap64_of_inS64 {x : Int} (h : InS64 x) : wrap64 x = x := by
  unfold InS64 at h; unfold wrap64; omega

theorem wrap32_sub_self_emod (x : Int) : (wrap32 x - x) % 4294967296 = 0 := by
  unfold wrap32; omega

theorem wrap64_sub_self_emod (x : Int) : (wrap64 x - x) % 18446744073709551616 = 0 := by
  unfold wrap64; omega

theorem sar32_eq_asr (a : Int) (k : Nat) : sar32 a k = asr a k := by
  unfold sar32 asr
  rw [Int.shiftRight_eq_div_pow]
  norm_cast

theorem sar64_eq_asr (a : Int) (k : Nat) : sar64 a k = asr a k := by
  unfold sar64 asr
  rw [Int.shiftRight_eq_div_pow]
  norm_cast

/-! ## Temperature compensation: the claims -/

/-- C1: for every raw count and calibration block, `BME280_compensate_T_int32` computes
`var1` and `var2` by the two formulas of specification §4.2 in 32-bit two's-complement
arithmetic with arithmetic right shift, stores `var1 + var2` as the fine temperature and
returns `(fine_temperature * 5 + 128) >> 8`. -/
theorem compensate_T_matches_spec (adc_T : Int) (comp : BME280_Compensations_t)
    (g : BME280_Globals) :
    (BME280_compensate_T_int32 adc_T comp g).2.t_fine
        = spec_T_fine adc_T comp.dig_T1 comp.dig_T2 comp.dig_T3 ∧
    (BME280_compensate_T_int32 adc_T comp g).1
        = spec_T_out (BME280_compensate_T_int32 adc_T comp g).2.t_fine := by
  simp only [BME280_compensate_T_int32, spec_T_fine, spec_T_var1, spec_T_var2, spec_T_out,
    add32, sub32, mul32, shl32, sar32_eq_asr, pow_one, and_self]

/-- C3: on the datasheet reference input the temperature compensation returns exactly
2508 (25.08 °C) and leaves the fine temperature equal to exactly 128422. -/
theorem compensate_T_reference (g : BME280_Globals) :
    BME280_compensate_T_int32 519888 refComp g = (2508, { t_fine := 128422 }) := by
  rfl

/-! ## Pressure compensation: the claims -/

theorem shl64_one_47 : shl64 1 47 = 2 ^ 47 := by decide

theorem P_divisor_eq_spec (comp : BME280_Compensations_t) (g : BME280_Globals) :
    BME280_P_divisor comp g = spec_P_var1 g.t_fine comp := by
  simp only [BME280_P_divisor, spec_P_var1, add64, sub64, mul64, shl64, sar64_eq_asr]
  rw [show wrap64 (1 * 2 ^ 47) = 2 ^ 47 from shl64_one_47]

theorem P_dividend_eq_spec (adc_P : Int) (comp : BME280_Compensations_t)
    (g : BME280_Globals) :
    BME280_P_dividend adc_P comp g
      = spec_P_dividend (wrap32 (1048576 - adc_P)) (spec_P_var2 g.t_fine comp) := by
  simp only [BME280_P_dividend, spec_P_dividend, spec_P_var2, add64, sub64, mul64, shl64,
    sub32]

theorem div64_eq_some (a b : Int) (hb : b ≠ 0)
    (hab : ¬ (a = -9223372036854775808 ∧ b = -1)) :
    div64 a b = some (wrap64 (Int.tdiv a b)) := by
  unfold div64
  rw [if_neg (not_or.mpr ⟨hb, hab⟩)]

/-- The function in terms of its divisor and its dividend: 0 for a zero divisor,
otherwise the steps of lines 73-76 applied to the quotient, when there is one. -/
theorem compensate_P_eq (adc_P : Int) (comp : BME280_Compensations_t) (g : BME280_Globals) :
    BME280_compensate_P_int64 adc_P comp g =
      if BME280_P_divisor comp g = 0 then some (0, g)
      else (div64 (BME280_P_dividend adc_P comp g) (BME280_P_divisor comp g)).bind fun p =>
        some (toU32 (add64 (sar64 (add64 (add64 p
          (sar64 (mul64 (mul64 comp.dig_P9 (sar64 p 13)) (sar64 p 13)) 25))
          (sar64 (mul64 comp.dig_P8 p) 19)) 8) (shl64 comp.dig_P7 4)), g) :=
  rfl

theorem compensate_P_zero_divisor (adc_P : Int) (comp : BME280_Compensations_t)
    (g : BME280_Globals) (h : BME280_P_divisor comp g = 0) :
    BME280_compensate_P_int64 adc_P comp g = some (0, g) := by
  rw [compensate_P_eq, if_pos h]

theorem compensate_P_nonzero_divisor (adc_P : Int) (comp : BME280_Compensations_t)
    (g : BME280_Globals) (h : BME280_P_divisor comp g ≠ 0)
    (hdef : ¬ (BME280_P_dividend adc_P comp g = -9223372036854775808 ∧
      BME280_P_divisor comp g = -1)) :
    BME280_compensate_P_int64 adc_P comp g
      = some (toU32 (spec_P_narrow_start adc_P g.t_fine comp), g) := by
  rw [compensate_P_eq, if_neg h, div64_eq_some _ _ h hdef, Option.some_bind,
    P_divisor_eq_spec, P_dividend_eq_spec]
  simp only [spec_P_narrow_start, spec_P_tail, spec_P_dividend, add64, mul64, shl64,
    sar64_eq_asr]

theorem spec_P_narrow_start_eq_wide (adc_P fine : Int) (cal : BME280_Compensations_t)
    (h : -2146435071 ≤ adc_P ∧ adc_P ≤ 2147483647) :
    spec_P_narrow_start adc_P fine cal = spec_P adc_P fine cal := by
  have e : wrap32 (1048576 - adc_P) = wrap64 (1048576 - adc_P) := by
    unfold wrap32 wrap64; omega
  unfold spec_P_narrow_start spec_P
  rw [e]

/-- C2 (as amended): whenever the divisor `var1` of specification §4.3 is non-zero and
the division of §4.3 is not that of the least 64-bit value by -1 (which has no result),
`BME280_compensate_P_int64` returns the low 32 bits of the `p` obtained by the §4.3 step
sequence in 64-bit two's-complement arithmetic (arithmetic right shift, division
truncating toward zero), except that the single step `p = 1048576 - adc_P` is evaluated
in 32-bit two's-complement arithmetic and then widened to 64 bits; for
`adc_P ≥ -2146435071`, hence for every 20-bit raw count, that step has the same value
in both widths and the result is the one of the all-64-bit sequence. -/
theorem compensate_P_matches_spec_narrow_start (adc_P : Int) (comp : BME280_Compensations_t)
    (g : BME280_Globals) (h : spec_P_var1 g.t_fine comp ≠ 0)
    (hdef : ¬ (spec_P_dividend (wrap32 (1048576 - adc_P)) (spec_P_var2 g.t_fine comp)
        = -9223372036854775808 ∧ spec_P_var1 g.t_fine comp = -1)) :
    BME280_compensate_P_int64 adc_P comp g
      = some (toU32 (spec_P_narrow_start adc_P g.t_fine comp), g) ∧
    (-2146435071 ≤ adc_P ∧ adc_P ≤ 2147483647 →
      BME280_compensate_P_int64 adc_P comp g
        = some (toU32 (spec_P adc_P g.t_fine comp), g)) := by
  rw [← P_divisor_eq_spec] at h hdef
  rw [← P_dividend_eq_spec] at hdef
  rw [compensate_P_nonzero_divisor adc_P comp g h hdef]
  exact ⟨rfl, fun hr => by rw [spec_P_narrow_start_eq_wide adc_P g.t_fine comp hr]⟩

/-- Witness for C2 (as amended): the datasheet reference input has a non-zero divisor, a
division that has a result and a raw count in the range where both widths agree. -/
theorem compensate_P_matches_spec_narrow_start_witness :
    (spec_P_var1 128422 refComp ≠ 0 ∧
      ¬ (spec_P_dividend (wrap32 (1048576 - 415148)) (spec_P_var2 128422 refComp)
          = -9223372036854775808 ∧ spec_P_var1 128422 refComp = -1) ∧
      (-2146435071 : Int) ≤ 415148 ∧ (415148 : Int) ≤ 2147483647) ∧
    BME280_compensate_P_int64 415148 refComp { t_fine := 128422 }
      = some (toU32 (spec_P_narrow_start 415148 128422 refComp), { t_fine := 128422 }) ∧
    BME280_compensate_P_int64 415148 refComp { t_fine := 128422 }
      = some (toU32 (spec_P 415148 128422 refComp), { t_fine := 128422 }) :=
  ⟨by decide,
   (compensate_P_matches_spec_narrow_start 415148 refComp { t_fine := 128422 }
      (by decide) (by decide)).1,
   (compensate_P_matches_spec_narrow_start 415148 refComp { t_fine := 128422 }
      (by decide) (by decide)).2 (by decide)⟩

/-- When the exact result of every operation fits its type and the divisor is non-zero,
the function returns the low 32 bits of the last exact intermediate: the unbounded
computation listed by `BME280_P_exact_intermediates` is then the one the code performs,
and its division has a result. -/
theorem compensate_P_exact_of_no_overflow (adc_P : Int) (comp : BME280_Compensations_t)
    (g : BME280_Globals)
    (h32 : InS32 (BME280_P_exact_intermediates adc_P comp g).1)
    (h64 : ∀ x ∈ (BME280_P_exact_intermediates adc_P comp g).2, InS64 x)
    (hd : BME280_P_divisor comp g ≠ 0) :
    ∃ p, (BME280_P_exact_intermediates adc_P comp g).2.getLast? = some p ∧
      BME280_compensate_P_int64 adc_P comp g = some (toU32 p, g) := by
  unfold BME280_P_exact_intermediates at h32 h64
  simp only [List.mem_cons, forall_eq_or_imp, List.mem_singleton, forall_eq,
    List.not_mem_nil, false_implies, implies_true, and_true] at h64
  obtain ⟨h1, h2, h3, h4, h5, h6, h7, h8, h9, h10, h11, h12, h13, h14, h15, h16, h17, h18,
    h19, h20, h21, h22, h23, h24, h25⟩ := h64
  have hd1 := hd
  simp only [BME280_P_divisor, add64, sub64, mul64, shl64, sar64_eq_asr, asr, one_mul,
    wrap64_of_inS64 h1, wrap64_of_inS64 h2, wrap64_of_inS64 h9, wrap64_of_inS64 h10,
    wrap64_of_inS64 h11, wrap64_of_inS64 h12, wrap64_of_inS64 h13, wrap64_of_inS64 h14,
    wrap64_of_inS64 (show InS64 (2 ^ 47) by decide)] at hd1
  refine ⟨_, rfl, ?_⟩
  simp only [BME280_compensate_P_int64, add64, sub64, mul64, shl64, sub32,
    sar64_eq_asr, asr, one_mul,
    wrap64_of_inS64 h1, wrap64_of_inS64 h2, wrap64_of_inS64 h3, wrap64_of_inS64 h4,
    wrap64_of_inS64 h5, wrap64_of_inS64 h6, wrap64_of_inS64 h7, wrap64_of_inS64 h8,
    wrap64_of_inS64 h9, wrap64_of_inS64 h10,
    wrap64_of_inS64 h11, wrap64_of_inS64 h12, wrap64_of_inS64 h13, wrap64_of_inS64 h14,
    wrap64_of_inS64 (show InS64 (2 ^ 47) by decide), if_neg hd1, wrap32_of_inS32 h32,
    wrap64_of_inS64 h15, wrap64_of_inS64 h16, wrap64_of_inS64 h17]
  unfold div64
  split_ifs with hc
  · rcases hc with h0 | ⟨e1, e2⟩
    · exact absurd h0 hd1
    · rw [e1, e2] at h18
      exact absurd h18 (by decide)
  · simp only [Option.some_bind, add64, mul64, shl64, sar64_eq_asr, asr,
      wrap64_of_inS64 h18,
      wrap64_of_inS64 h19, wrap64_of_inS64 h20, wrap64_of_inS64 h21, wrap64_of_inS64 h22,
      wrap64_of_inS64 h23, wrap64_of_inS64 h24, wrap64_of_inS64 h25]
    rfl

/-- C2 (as stated) fails: for `adc_P = -2147483648` with the datasheet calibration and
fine temperature 128422 the divisor is non-zero, the code returns 13842509, and the
64-bit evaluation of every step of §4.3 has low 32 bits 4251536212.  It also fails for
the 20-bit raw count 1048574 with `overflowComp` and fine temperature 1073935360: the
divisor of §4.3 is -1, not zero, the dividend is the least 64-bit value, and the code
returns nothing. -/
theorem compensate_P_differs_from_wide_spec :
    (spec_P_var1 128422 refComp ≠ 0 ∧
      BME280_compensate_P_int64 (-2147483648) refComp { t_fine := 128422 }
        = some (13842509, { t_fine := 128422 }) ∧
      toU32 (spec_P (-2147483648) 128422 refComp) = 4251536212 ∧
      BME280_compensate_P_int64 (-2147483648) refComp { t_fine := 128422 }
        ≠ some (toU32 (spec_P (-2147483648) 128422 refComp), { t_fine := 128422 })) ∧
    (spec_P_var1 1073935360 overflowComp = -1 ∧
      spec_P_dividend (wrap64 (1048576 - 1048574)) (spec_P_var2 1073935360 overflowComp)
        = -9223372036854775808 ∧
      BME280_compensate_P_int64 1048574 overflowComp { t_fine := 1073935360 } = none) := by
  decide

/-- C4: on the datasheet reference input (fine temperature 128422, as the reference
temperature step leaves it) the pressure compensation returns exactly
25767233, which is 100653 Pa and 25 hundredths in units of 1/256 Pa, and the exact
result of every arithmetic operation on the way fits its type (the last one being the
returned value), so no 64-bit intermediate overflows. -/
theorem compensate_P_reference :
    (BME280_compensate_T_int32 519888 refComp BME280_Globals.init).2 = { t_fine := 128422 } ∧
    BME280_compensate_P_int64 415148 refComp { t_fine := 128422 }
      = some (25767233, { t_fine := 128422 }) ∧
    InS32 (BME280_P_exact_intermediates 415148 refComp { t_fine := 128422 }).1 ∧
    (∀ x ∈ (BME280_P_exact_intermediates 415148 refComp { t_fine := 128422 }).2, InS64 x) ∧
    (BME280_P_exact_intermediates 415148 refComp { t_fine := 128422 }).2.getLast?
      = some 25767233 ∧
    (25767233 : Int) / 256 = 100653 ∧
    (25767233 : Int) % 256 * 100 / 256 = 25 := by
  decide

/-- C5: whenever the divisor `var1` computed at line 66 is zero the function returns
exactly 0 (and leaves the state alone) instead of dividing; in particular it returns 0
whenever `dig_P1 = 0`, for every `adc_P`, every other coefficient and every fine
temperature. -/
theorem compensate_P_zero_guard (adc_P : Int) (comp : BME280_Compensations_t)
    (g : BME280_Globals) :
    (BME280_P_divisor comp g = 0 → BME280_compensate_P_int64 adc_P comp g = some (0, g)) ∧
    (comp.dig_P1 = 0 → BME280_compensate_P_int64 adc_P comp g = some (0, g)) := by
  refine ⟨compensate_P_zero_divisor adc_P comp g, fun h1 => ?_⟩
  apply compensate_P_zero_divisor
  simp only [BME280_P_divisor, h1, mul64, mul_zero, sar64]
  decide

/-- Witness for C5: with `dig_P1 = 0` the reference input returns 0, and so does an input
whose divisor vanishes although `dig_P1 = 1` (fine temperature 1176576,
`dig_P2 = -32768`, `dig_P3 = 0`). -/
theorem compensate_P_zero_guard_witness :
    (BME280_P_divisor { refComp with dig_P1 := 1, dig_P2 := -32768, dig_P3 := 0 }
        { t_fine := 1176576 } = 0 ∧
      BME280_compensate_P_int64 415148
        { refComp with dig_P1 := 1, dig_P2 := -32768, dig_P3 := 0 } { t_fine := 1176576 }
        = some (0, { t_fine := 1176576 })) ∧
    ({ refComp with dig_P1 := 0 }.dig_P1 = 0 ∧
      BME280_compensate_P_int64 415148 { refComp with dig_P1 := 0 } { t_fine := 128422 }
        = some (0, { t_fine := 128422 })) :=
  ⟨⟨by decide, (compensate_P_zero_guard 415148
      { refComp with dig_P1 := 1, dig_P2 := -32768, dig_P3 := 0 } { t_fine := 1176576 }).1
      (by decide)⟩,
   ⟨rfl, (compensate_P_zero_guard 415148 { refComp with dig_P1 := 0 }
      { t_fine := 128422 }).2 rfl⟩⟩

/-! ## Humidity compensation: the claims -/

theorem H_clamped_range (adc_H : Int) (comp : BME280_Compensations_t) (g : BME280_Globals) :
    0 ≤ BME280_H_clamped adc_H comp g ∧ BME280_H_clamped adc_H comp g ≤ 419430400 := by
  unfold BME280_H_clamped
  simp only
  split_ifs <;> omega

theorem H_result_of_clamped (adc_H : Int) (comp : BME280_Compensations_t)
    (g : BME280_Globals) :
    (BME280_compensate_H_int32 adc_H comp g).1 = BME280_H_clamped adc_H comp g / 4096 := by
  have h := H_clamped_range adc_H comp g
  simp only [BME280_compensate_H_int32, toU32, sar32_eq_asr, asr]
  omega

/-- C6: for every `adc_H`, every calibration block and every fine temperature, the value
that `BME280_compensate_H_int32` shifts right by 12 lies in `[0, 419430400]` and the
returned value lies in `[0, 102400]`. -/
theorem compensate_H_range (adc_H : Int) (comp : BME280_Compensations_t)
    (g : BME280_Globals) :
    (0 ≤ BME280_H_clamped adc_H comp g ∧ BME280_H_clamped adc_H comp g ≤ 419430400) ∧
    (0 ≤ (BME280_compensate_H_int32 adc_H comp g).1 ∧
      (BME280_compensate_H_int32 adc_H comp g).1 ≤ 102400) := by
  have h := H_clamped_range adc_H comp g
  rw [H_result_of_clamped]
  omega

/-- C7: an input whose pre-clamp value exceeds 419430400 yields exactly 102400 and an
input whose pre-clamp value is negative yields exactly 0; both ends are reached with
fine temperature 76800 and `dig_H2 = 360`: `adc_H = 65535`, `dig_H4 = 0` has pre-clamp
value 1509949440 and returns 102400, and `adc_H = 0`, `dig_H4 = 1000` has pre-clamp value
-1474560000 and returns 0. -/
theorem compensate_H_saturates (adc_H : Int) (comp : BME280_Compensations_t)
    (g : BME280_Globals) :
    (419430400 < BME280_H_preclamp adc_H comp g →
      (BME280_compensate_H_int32 adc_H comp g).1 = 102400) ∧
    (BME280_H_preclamp adc_H comp g < 0 →
      (BME280_compensate_H_int32 adc_H comp g).1 = 0) ∧
    (BME280_H_preclamp 65535 (clampComp 0) { t_fine := 76800 } = 1509949440 ∧
      (BME280_compensate_H_int32 65535 (clampComp 0) { t_fine := 76800 }).1 = 102400) ∧
    (BME280_H_preclamp 0 (clampComp 1000) { t_fine := 76800 } = -1474560000 ∧
      (BME280_compensate_H_int32 0 (clampComp 1000) { t_fine := 76800 }).1 = 0) := by
  refine ⟨fun h => ?_, fun h => ?_, by decide, by decide⟩
  · rw [H_result_of_clamped]
    unfold BME280_H_clamped
    simp only
    split_ifs <;> omega
  · rw [H_result_of_clamped]
    unfold BME280_H_clamped
    simp only
    split_ifs <;> omega

/-- Witness for C7: the two saturating inputs of the claim, through the general
statement. -/
theorem compensate_H_saturates_witness :
    (419430400 < BME280_H_preclamp 65535 (clampComp 0) { t_fine := 76800 } ∧
      (BME280_compensate_H_int32 65535 (clampComp 0) { t_fine := 76800 }).1 = 102400) ∧
    (BME280_H_preclamp 0 (clampComp 1000) { t_fine := 76800 } < 0 ∧
      (BME280_compensate_H_int32 0 (clampComp 1000) { t_fine := 76800 }).1 = 0) :=
  ⟨⟨by decide, (compensate_H_saturates 65535 (clampComp 0) { t_fine := 76800 }).1
      (by decide)⟩,
   ⟨by decide, (compensate_H_saturates 0 (clampComp 1000) { t_fine := 76800 }).2.1
      (by decide)⟩⟩

/-! ## Calibration decoding: the claims -/

theorem getD_isByte {l : List Nat} (h : IsBytes l) (i : Nat) : l.getD i 0 < 256 := by
  rcases Nat.lt_or_ge i l.length with hi | hi
  · rw [List.getD_eq_getElem l 0 hi]
    exact h _ (List.getElem_mem hi)
  · rw [List.getD_eq_default l 0 hi]
    decide

theorem u16_of_bytes {lsb msb : Nat} (hl : lsb < 256) (hm : msb < 256) :
    u16 lsb msb = lsb + 256 * msb := by
  unfold u16
  rw [Nat.shiftLeft_eq, Nat.or_comm, Nat.mul_comm,
    ← Nat.mul_add_lt_is_or (show lsb < 2 ^ 8 from hl) msb]
  omega

theorem s16_of_bytes {lsb msb : Nat} (hl : lsb < 256) (hm : msb < 256) :
    s16 lsb msb = twos16 (lsb + 256 * msb) := by
  unfold s16 twos16 wrap16
  rw [u16_of_bytes hl hm]
  split_ifs <;> omega

theorem wrap8_of_byte {b : Nat} (hb : b < 256) : wrap8 b = twos8 b := by
  unfold wrap8 twos8
  split_ifs <;> omega

theorem packed12_of_bytes {hi lo : Nat} (hlo : lo < 16) :
    (hi <<< 4) ||| lo = 16 * hi + lo := by
  rw [Nat.shiftLeft_eq, Nat.mul_comm, ← Nat.mul_add_lt_is_or (show lo < 2 ^ 4 from hlo) hi]

theorem CalCompensationParams_ok {hbme280 : BME280_Handle_t} {read : I2C_Read}
    (hok : (BME280_CalCompensationParams hbme280 read).1 = HAL_OK) :
    (read 0x88 26).1 = HAL_OK ∧ (read 0xE1 7).1 = HAL_OK := by
  unfold BME280_CalCompensationParams at hok
  simp only at hok
  by_cases hA : (read 0x88 26).1 = HAL_OK
  · by_cases hB : (read 0xE1 7).1 = HAL_OK
    · exact ⟨hA, hB⟩
    · rw [if_neg (not_not.mpr hA), if_pos hB] at hok
      exact absurd hok hB
  · rw [if_pos hA] at hok
    exact absurd hok hA

/-- The temperature coefficients of the handle are never written: whatever the transport
delivers, the call leaves `dig_T1`, `dig_T2` and `dig_T3` as they were. -/
theorem CalCompensationParams_keeps_T (hbme280 : BME280_Handle_t) (read : I2C_Read) :
    (BME280_CalCompensationParams hbme280 read).2.Comp.dig_T1 = hbme280.Comp.dig_T1 ∧
    (BME280_CalCompensationParams hbme280 read).2.Comp.dig_T2 = hbme280.Comp.dig_T2 ∧
    (BME280_CalCompensationParams hbme280 read).2.Comp.dig_T3 = hbme280.Comp.dig_T3 := by
  unfold BME280_CalCompensationParams
  simp only
  split_ifs <;> exact ⟨rfl, rfl, rfl⟩

/-- C8 (evaluation at the failing input): a fresh handle and a device whose region A
holds the datasheet reference coefficients.  The call succeeds, the bytes of region A
encode `dig_T1 = 27504`, `dig_T2 = 26435`, `dig_T3 = -1000`, yet the calibration block
still holds 0 in all three temperature coefficients, and the temperature compensation
run on that block returns 0 instead of 2508. -/
theorem CalCompensationParams_drops_T :
    (BME280_CalCompensationParams freshHandle (busOf refRegionA negRegionB)).1 = HAL_OK ∧
    (u16 (refRegionA.getD 0 0) (refRegionA.getD 1 0) = 27504 ∧
      s16 (refRegionA.getD 2 0) (refRegionA.getD 3 0) = 26435 ∧
      s16 (refRegionA.getD 4 0) (refRegionA.getD 5 0) = -1000) ∧
    ((BME280_CalCompensationParams freshHandle (busOf refRegionA negRegionB)).2.Comp.dig_T1 = 0 ∧
      (BME280_CalCompensationParams freshHandle (busOf refRegionA negRegionB)).2.Comp.dig_T2 = 0 ∧
      (BME280_CalCompensationParams freshHandle (busOf refRegionA negRegionB)).2.Comp.dig_T3 = 0) ∧
    (BME280_compensate_T_int32 519888
      (BME280_CalCompensationParams freshHandle (busOf refRegionA negRegionB)).2.Comp
      BME280_Globals.init).1 = 0 := by
  decide

/-- C9 (evaluation at the failing input): region B with `0xE4 = 0x80`, `0xE5 = 0x21`,
`0xE6 = 0xFF`.  The 12-bit patterns are 0x801 and 0xFF2, whose sign extensions are -2047
and -14, but the decoded `dig_H4` and `dig_H5` are 2049 and 4082: the top bit of the
12-bit value is not propagated. -/
theorem CalCompensationParams_H4_H5_not_sign_extended :
    (BME280_CalCompensationParams freshHandle (busOf refRegionA negRegionB)).1 = HAL_OK ∧
    (sign_extend12 ((0x80 <<< 4) ||| (0x21 &&& 0x0F)) = -2047 ∧
      (BME280_CalCompensationParams freshHandle (busOf refRegionA negRegionB)).2.Comp.dig_H4
        = 2049) ∧
    (sign_extend12 ((0xFF <<< 4) ||| (0x21 >>> 4)) = -14 ∧
      (BME280_CalCompensationParams freshHandle (busOf refRegionA negRegionB)).2.Comp.dig_H5
        = 4082) := by
  decide

/-- The packed humidity coefficients as the code decodes them: for byte-valued buffers a
successful call leaves `dig_H4 = 16 * B[3] + B[4] mod 16` and
`dig_H5 = 16 * B[5] + B[4] div 16`, both in `[0, 4095]`; they agree with the 12-bit sign
extension exactly when the high byte is below 0x80. -/
theorem CalCompensationParams_H4_H5_value (hbme280 : BME280_Handle_t) (read : I2C_Read)
    (hok : (BME280_CalCompensationParams hbme280 read).1 = HAL_OK)
    (hB : IsBytes (read 0xE1 7).2) :
    (BME280_CalCompensationParams hbme280 read).2.Comp.dig_H4
      = 16 * ((read 0xE1 7).2.getD 3 0 : Int) + ((read 0xE1 7).2.getD 4 0 : Int) % 16 ∧
    (BME280_CalCompensationParams hbme280 read).2.Comp.dig_H5
      = 16 * ((read 0xE1 7).2.getD 5 0 : Int) + ((read 0xE1 7).2.getD 4 0 : Int) / 16 := by
  obtain ⟨hA1, hB1⟩ := CalCompensationParams_ok hok
  have b3 := getD_isByte hB 3
  have b4 := getD_isByte hB 4
  have b5 := getD_isByte hB 5
  unfold BME280_CalCompensationParams
  simp only [hA1, hB1, ne_eq, not_true_eq_false, if_false]
  have e4 : (read 0xE1 7).2.getD 4 0 &&& 0x0F = (read 0xE1 7).2.getD 4 0 % 16 :=
    Nat.and_pow_two_sub_one_eq_mod _ 4
  have e5 : (read 0xE1 7).2.getD 4 0 >>> 4 = (read 0xE1 7).2.getD 4 0 / 16 :=
    Nat.shiftRight_eq_div_pow _ 4
  rw [e4, e5, packed12_of_bytes (Nat.mod_lt _ (by decide)),
    packed12_of_bytes (show (read 0xE1 7).2.getD 4 0 / 16 < 16 by omega)]
  unfold wrap16
  constructor <;> omega

/-- C10: after a successful `BME280_CalCompensationParams` on byte-valued regions
`A = (read 0x88 26).2` and `B = (read 0xE1 7).2`: `dig_P1 = A[6] + 256*A[7]` (unsigned);
`dig_Pk`, `k = 2..9`, is the two's-complement 16-bit value of `A[2k+4] + 256*A[2k+5]`;
`dig_H1 = A[25]` and `dig_H3 = B[2]` (unsigned 8-bit); `dig_H2` is the two's-complement
16-bit value of `B[0] + 256*B[1]`; `dig_H6` is `B[6]` read as signed 8-bit. -/
theorem CalCompensationParams_decodes_P_H (hbme280 : BME280_Handle_t) (read : I2C_Read)
    (hok : (BME280_CalCompensationParams hbme280 read).1 = HAL_OK)
    (hA : IsBytes (read 0x88 26).2) (hB : IsBytes (read 0xE1 7).2) :
    (BME280_CalCompensationParams hbme280 read).2.Comp.dig_P1
      = (((read 0x88 26).2.getD 6 0 + 256 * (read 0x88 26).2.getD 7 0 : Nat) : Int) ∧
    (BME280_CalCompensationParams hbme280 read).2.Comp.dig_P2
      = twos16 ((read 0x88 26).2.getD 8 0 + 256 * (read 0x88 26).2.getD 9 0) ∧
    (BME280_CalCompensationParams hbme280 read).2.Comp.dig_P3
      = twos16 ((read 0x88 26).2.getD 10 0 + 256 * (read 0x88 26).2.getD 11 0) ∧
    (BME280_CalCompensationParams hbme280 read).2.Comp.dig_P4
      = twos16 ((read 0x88 26).2.getD 12 0 + 256 * (read 0x88 26).2.getD 13 0) ∧
    (BME280_CalCompensationParams hbme280 read).2.Comp.dig_P5
      = twos16 ((read 0x88 26).2.getD 14 0 + 256 * (read 0x88 26).2.getD 15 0) ∧
    (BME280_CalCompensationParams hbme280 read).2.Comp.dig_P6
      = twos16 ((read 0x88 26).2.getD 16 0 + 256 * (read 0x88 26).2.getD 17 0) ∧
    (BME280_CalCompensationParams hbme280 read).2.Comp.dig_P7
      = twos16 ((read 0x88 26).2.getD 18 0 + 256 * (read 0x88 26).2.getD 19 0) ∧
    (BME280_CalCompensationParams hbme280 read).2.Comp.dig_P8
      = twos16 ((read 0x88 26).2.getD 20 0 + 256 * (read 0x88 26).2.getD 21 0) ∧
    (BME280_CalCompensationParams hbme280 read).2.Comp.dig_P9
      = twos16 ((read 0x88 26).2.getD 22 0 + 256 * (read 0x88 26).2.getD 23 0) ∧
    (BME280_CalCompensationParams hbme280 read).2.Comp.dig_H1
      = (((read 0x88 26).2.getD 25 0 : Nat) : Int) ∧
    (BME280_CalCompensationParams hbme280 read).2.Comp.dig_H2
      = twos16 ((read 0xE1 7).2.getD 0 0 + 256 * (read 0xE1 7).2.getD 1 0) ∧
    (BME280_CalCompensationParams hbme280 read).2.Comp.dig_H3
      = (((read 0xE1 7).2.getD 2 0 : Nat) : Int) ∧
    (BME280_CalCompensationParams hbme280 read).2.Comp.dig_H6
      = twos8 ((read 0xE1 7).2.getD 6 0) := by
  obtain ⟨hA1, hB1⟩ := CalCompensationParams_ok hok
  have a := getD_isByte hA
  have b := getD_isByte hB
  unfold BME280_CalCompensationParams
  simp only [hA1, hB1, ne_eq, not_true_eq_false, if_false]
  rw [u16_of_bytes (a 6) (a 7), s16_of_bytes (a 8) (a 9), s16_of_bytes (a 10) (a 11),
    s16_of_bytes (a 12) (a 13), s16_of_bytes (a 14) (a 15), s16_of_bytes (a 16) (a 17),
    s16_of_bytes (a 18) (a 19), s16_of_bytes (a 20) (a 21), s16_of_bytes (a 22) (a 23),
    s16_of_bytes (b 0) (b 1), wrap8_of_byte (b 6)]
  exact ⟨rfl, rfl, rfl, rfl, rfl, rfl, rfl, rfl, rfl, trivial, rfl, trivial, rfl⟩

/-- Witness for C10: a fresh handle reading the reference region A and a region B of
seven bytes; the decoded pressure coefficients are the datasheet ones. -/
theorem CalCompensationParams_decodes_P_H_witness :
    ((BME280_CalCompensationParams freshHandle (busOf refRegionA negRegionB)).1 = HAL_OK ∧
      IsBytes (busOf refRegionA negRegionB 0x88 26).2 ∧
      IsBytes (busOf refRegionA negRegionB 0xE1 7).2) ∧
    (BME280_CalCompensationParams freshHandle (busOf refRegionA negRegionB)).2.Comp.dig_P1
      = ((((busOf refRegionA negRegionB) 0x88 26).2.getD 6 0
          + 256 * ((busOf refRegionA negRegionB) 0x88 26).2.getD 7 0 : Nat) : Int) ∧
    (BME280_CalCompensationParams freshHandle (busOf refRegionA negRegionB)).2.Comp.dig_P1
      = 36477 ∧
    (BME280_CalCompensationParams freshHandle (busOf refRegionA negRegionB)).2.Comp.dig_P2
      = -10685 ∧
    (BME280_CalCompensationParams freshHandle (busOf refRegionA negRegionB)).2.Comp.dig_H6
      = 30 :=
  ⟨⟨by decide, by decide, by decide⟩,
   (CalCompensationParams_decodes_P_H freshHandle (busOf refRegionA negRegionB)
      (by decide) (by decide) (by decide)).1,
   by decide, by decide, by decide⟩

/-- C11: whenever a successful call reads a region B with `B[3] = 0x12`, shared byte
`B[4] = 0xAB` and `B[5] = 0x34`, the decoded values are `dig_H4 = 0x12B = 299` (low
nibble of the shared byte) and `dig_H5 = 0x34A = 842` (high nibble of the shared byte). -/
theorem CalCompensationParams_nibble_direction (hbme280 : BME280_Handle_t) (read : I2C_Read)
    (hok : (BME280_CalCompensationParams hbme280 read).1 = HAL_OK)
    (h3 : (read 0xE1 7).2.getD 3 0 = 0x12) (h4 : (read 0xE1 7).2.getD 4 0 = 0xAB)
    (h5 : (read 0xE1 7).2.getD 5 0 = 0x34) :
    (BME280_CalCompensationParams hbme280 read).2.Comp.dig_H4 = 299 ∧
    (BME280_CalCompensationParams hbme280 read).2.Comp.dig_H5 = 842 := by
  obtain ⟨hA1, hB1⟩ := CalCompensationParams_ok hok
  unfold BME280_CalCompensationParams
  simp only [hA1, hB1, ne_eq, not_true_eq_false, if_false, h3, h4, h5]
  decide

/-- Witness for C11: a fresh handle on a device delivering the reference region A and
the synthetic region B `.. 12 AB 34 ..`. -/
theorem CalCompensationParams_nibble_direction_witness :
    (BME280_CalCompensationParams freshHandle (busOf refRegionA nibbleRegionB)).1 = HAL_OK ∧
    (BME280_CalCompensationParams freshHandle (busOf refRegionA nibbleRegionB)).2.Comp.dig_H4
      = 0x12B ∧
    (BME280_CalCompensationParams freshHandle (busOf refRegionA nibbleRegionB)).2.Comp.dig_H5
      = 0x34A :=
  ⟨by decide,
   CalCompensationParams_nibble_direction freshHandle (busOf refRegionA nibbleRegionB)
     (by decide) (by decide) (by decide) (by decide)⟩

theorem reencode_E4_natCast (n : Nat) : reencode_E4 (n : Int) = ((n / 16 % 256 : Nat) : Int) := by
  show (((n >>> 4) &&& 255 : Nat) : Int) = _
  rw [Nat.shiftRight_eq_div_pow, Nat.and_pow_two_sub_one_eq_mod _ 8]

theorem reencode_E6_natCast (n : Nat) : reencode_E6 (n : Int) = ((n / 16 % 256 : Nat) : Int) :=
  reencode_E4_natCast n

theorem reencode_E5_natCast (m n : Nat) :
    reencode_E5 (m : Int) (n : Int) = ((m % 16 + 16 * (n % 16) : Nat) : Int) := by
  show (((m &&& 15) ||| ((n &&& 15) * 2 ^ 4) : Nat) : Int) = _
  rw [Nat.and_pow_two_sub_one_eq_mod _ 4, Nat.and_pow_two_sub_one_eq_mod _ 4, Nat.or_comm,
    ← Nat.shiftLeft_eq, packed12_of_bytes (Nat.mod_lt _ (by decide))]
  omega

/-- The packed humidity coefficients of a successful call on byte buffers, as casts of
natural numbers. -/
theorem CalCompensationParams_H4_H5_natCast (hbme280 : BME280_Handle_t) (read : I2C_Read)
    (hok : (BME280_CalCompensationParams hbme280 read).1 = HAL_OK)
    (hB : IsBytes (read 0xE1 7).2) :
    (BME280_CalCompensationParams hbme280 read).2.Comp.dig_H4
      = ((16 * (read 0xE1 7).2.getD 3 0 + (read 0xE1 7).2.getD 4 0 % 16 : Nat) : Int) ∧
    (BME280_CalCompensationParams hbme280 read).2.Comp.dig_H5
      = ((16 * (read 0xE1 7).2.getD 5 0 + (read 0xE1 7).2.getD 4 0 / 16 : Nat) : Int) := by
  obtain ⟨e4, e5⟩ := CalCompensationParams_H4_H5_value hbme280 read hok hB
  rw [e4, e5]
  constructor <;> push_cast <;> rfl

theorem CalCompensationParams_reencode (hbme280 : BME280_Handle_t) (read : I2C_Read)
    (hok : (BME280_CalCompensationParams hbme280 read).1 = HAL_OK)
    (hB : IsBytes (read 0xE1 7).2) :
    reencode_E4 (BME280_CalCompensationParams hbme280 read).2.Comp.dig_H4
      = ((read 0xE1 7).2.getD 3 0 : Nat) ∧
    reencode_E5 (BME280_CalCompensationParams hbme280 read).2.Comp.dig_H4
        (BME280_CalCompensationParams hbme280 read).2.Comp.dig_H5
      = ((read 0xE1 7).2.getD 4 0 : Nat) ∧
    reencode_E6 (BME280_CalCompensationParams hbme280 read).2.Comp.dig_H5
      = ((read 0xE1 7).2.getD 5 0 : Nat) := by
  obtain ⟨e4, e5⟩ := CalCompensationParams_H4_H5_natCast hbme280 read hok hB
  have b3 := getD_isByte hB 3
  have b4 := getD_isByte hB 4
  have b5 := getD_isByte hB 5
  rw [e4, e5, reencode_E4_natCast, reencode_E5_natCast, reencode_E6_natCast]
  refine ⟨?_, ?_, ?_⟩ <;> congr 1 <;> omega

/-- C12: the H4/H5 packing is decoded without loss.  For every successful call on a
byte-valued region B, re-encoding the decoded values recovers the three packed bytes:
`B[3] = (dig_H4 >> 4) & 0xFF`, `B[4] = (dig_H4 & 0x0F) | ((dig_H5 & 0x0F) << 4)`,
`B[5] = (dig_H5 >> 4) & 0xFF`; hence two calls that decode the same `(dig_H4, dig_H5)`
pair read the same byte triple. -/
theorem CalCompensationParams_H4_H5_lossless (h1 h2 : BME280_Handle_t) (r1 r2 : I2C_Read)
    (hok1 : (BME280_CalCompensationParams h1 r1).1 = HAL_OK) (hB1 : IsBytes (r1 0xE1 7).2)
    (hok2 : (BME280_CalCompensationParams h2 r2).1 = HAL_OK) (hB2 : IsBytes (r2 0xE1 7).2) :
    (reencode_E4 (BME280_CalCompensationParams h1 r1).2.Comp.dig_H4
        = ((r1 0xE1 7).2.getD 3 0 : Nat) ∧
      reencode_E5 (BME280_CalCompensationParams h1 r1).2.Comp.dig_H4
          (BME280_CalCompensationParams h1 r1).2.Comp.dig_H5
        = ((r1 0xE1 7).2.getD 4 0 : Nat) ∧
      reencode_E6 (BME280_CalCompensationParams h1 r1).2.Comp.dig_H5
        = ((r1 0xE1 7).2.getD 5 0 : Nat)) ∧
    ((BME280_CalCompensationParams h1 r1).2.Comp.dig_H4
        = (BME280_CalCompensationParams h2 r2).2.Comp.dig_H4 →
      (BME280_CalCompensationParams h1 r1).2.Comp.dig_H5
        = (BME280_CalCompensationParams h2 r2).2.Comp.dig_H5 →
      (r1 0xE1 7).2.getD 3 0 = (r2 0xE1 7).2.getD 3 0 ∧
      (r1 0xE1 7).2.getD 4 0 = (r2 0xE1 7).2.getD 4 0 ∧
      (r1 0xE1 7).2.getD 5 0 = (r2 0xE1 7).2.getD 5 0) := by
  obtain ⟨a3, a4, a5⟩ := CalCompensationParams_reencode h1 r1 hok1 hB1
  obtain ⟨c3, c4, c5⟩ := CalCompensationParams_reencode h2 r2 hok2 hB2
  refine ⟨⟨a3, a4, a5⟩, fun e4 e5 => ?_⟩
  rw [e4] at a3
  rw [e4, e5] at a4
  rw [e5] at a5
  exact ⟨Int.ofNat.inj (a3.symm.trans c3), Int.ofNat.inj (a4.symm.trans c4),
    Int.ofNat.inj (a5.symm.trans c5)⟩

/-- Witness for C12: the region with both top bits set, read on a fresh handle, is
re-encoded to `80 21 FF`; and two handles with different prior calibration that decode
the same pair have read the same triple. -/
theorem CalCompensationParams_H4_H5_lossless_witness :
    (reencode_E4 (BME280_CalCompensationParams freshHandle
          (busOf refRegionA negRegionB)).2.Comp.dig_H4 = ((0x80 : Nat) : Int) ∧
      reencode_E5 (BME280_CalCompensationParams freshHandle
          (busOf refRegionA negRegionB)).2.Comp.dig_H4
        (BME280_CalCompensationParams freshHandle
          (busOf refRegionA negRegionB)).2.Comp.dig_H5 = ((0x21 : Nat) : Int) ∧
      reencode_E6 (BME280_CalCompensationParams freshHandle
          (busOf refRegionA negRegionB)).2.Comp.dig_H5 = ((0xFF : Nat) : Int)) ∧
    ((busOf refRegionA negRegionB 0xE1 7).2.getD 3 0
        = (busOf (zeroRegion 26) negRegionB 0xE1 7).2.getD 3 0 ∧
      (busOf refRegionA negRegionB 0xE1 7).2.getD 4 0
        = (busOf (zeroRegion 26) negRegionB 0xE1 7).2.getD 4 0 ∧
      (busOf refRegionA negRegionB 0xE1 7).2.getD 5 0
        = (busOf (zeroRegion 26) negRegionB 0xE1 7).2.getD 5 0) :=
  ⟨(CalCompensationParams_H4_H5_lossless freshHandle { freshHandle with Comp := refCompH }
      (busOf refRegionA negRegionB) (busOf (zeroRegion 26) negRegionB)
      (by decide) (by decide) (by decide) (by decide)).1,
   (CalCompensationParams_H4_H5_lossless freshHandle { freshHandle with Comp := refCompH }
      (busOf refRegionA negRegionB) (busOf (zeroRegion 26) negRegionB)
      (by decide) (by decide) (by decide) (by decide)).2 (by decide) (by decide)⟩

/-- C13: if the read of region A returns a status other than `HAL_OK`, or that read
succeeds and the read of region B returns a status other than `HAL_OK`, the call returns
that same status and leaves the handle, hence every field of the calibration block,
exactly as it was. -/
theorem CalCompensationParams_transport_error (hbme280 : BME280_Handle_t) (read : I2C_Read) :
    ((read 0x88 26).1 ≠ HAL_OK →
      BME280_CalCompensationParams hbme280 read = ((read 0x88 26).1, hbme280)) ∧
    ((read 0x88 26).1 = HAL_OK → (read 0xE1 7).1 ≠ HAL_OK →
      BME280_CalCompensationParams hbme280 read = ((read 0xE1 7).1, hbme280)) := by
  constructor
  · intro hA
    unfold BME280_CalCompensationParams
    simp only
    rw [if_pos hA]
  · intro hA hB
    unfold BME280_CalCompensationParams
    simp only
    rw [if_neg (not_not.mpr hA), if_pos hB]

/-- Witness for C13: a handle holding the reference calibration, with a timeout on
region A and with an error on region B. -/
theorem CalCompensationParams_transport_error_witness :
    ((busFailA HAL_TIMEOUT 0x88 26).1 ≠ HAL_OK ∧
      BME280_CalCompensationParams { freshHandle with Comp := refCompH } (busFailA HAL_TIMEOUT)
        = (HAL_TIMEOUT, { freshHandle with Comp := refCompH })) ∧
    (((busFailB HAL_ERROR 0x88 26).1 = HAL_OK ∧ (busFailB HAL_ERROR 0xE1 7).1 ≠ HAL_OK) ∧
      BME280_CalCompensationParams { freshHandle with Comp := refCompH } (busFailB HAL_ERROR)
        = (HAL_ERROR, { freshHandle with Comp := refCompH })) :=
  ⟨⟨by decide, (CalCompensationParams_transport_error { freshHandle with Comp := refCompH }
      (busFailA HAL_TIMEOUT)).1 (by decide)⟩,
   ⟨by decide, (CalCompensationParams_transport_error { freshHandle with Comp := refCompH }
      (busFailB HAL_ERROR)).2 (by decide) (by decide)⟩⟩

theorem CalCompensationParams_status_indep (h1 h2 : BME280_Handle_t) (read : I2C_Read) :
    (BME280_CalCompensationParams h1 read).1 = (BME280_CalCompensationParams h2 read).1 := by
  unfold BME280_CalCompensationParams
  simp only
  split_ifs <;> rfl

/-- C14: if the identity value seen by `BME280_Init` is not 0x60, it returns `HAL_ERROR`,
issues no transport read besides the identity read (and its result does not depend on
what any other read would deliver), and leaves the calibration block unchanged; if the
value is 0x60 it returns exactly what `BME280_CalCompensationParams` returns. -/
theorem Init_identity_check (hbme280 : BME280_Handle_t) (read : I2C_Read) :
    (BME280_Init_id_seen hbme280 read ≠ 0x60 →
      (BME280_Init hbme280 read).1 = HAL_ERROR ∧
      BME280_Init_reads hbme280 read = [(0xD0, 1)] ∧
      (BME280_Init hbme280 read).2.Comp = hbme280.Comp ∧
      (∀ other : I2C_Read, other 0xD0 1 = read 0xD0 1 →
        BME280_Init hbme280 other = BME280_Init hbme280 read)) ∧
    (BME280_Init_id_seen hbme280 read = 0x60 →
      BME280_Init hbme280 read
        = BME280_CalCompensationParams
            { hbme280 with Reg := { hbme280.Reg with id_reg := 0x60 } } read ∧
      (BME280_Init hbme280 read).1 = (BME280_CalCompensationParams hbme280 read).1) := by
  constructor
  · intro hid
    have hid1 := hid
    unfold BME280_Init_id_seen at hid1
    refine ⟨?_, ?_, ?_, ?_⟩
    · unfold BME280_Init
      simp only
      rw [if_pos hid1]
    · unfold BME280_Init_reads
      rw [if_pos hid]
    · unfold BME280_Init
      simp only
      rw [if_pos hid1]
    · intro other ho
      unfold BME280_Init
      simp only
      rw [ho, if_pos hid1, if_pos hid1]
  · intro hid
    have hid1 := hid
    unfold BME280_Init_id_seen at hid1
    have e : BME280_Init hbme280 read
        = BME280_CalCompensationParams
            { hbme280 with Reg := { hbme280.Reg with id_reg := 0x60 } } read := by
      unfold BME280_Init
      simp only
      rw [if_neg (not_not.mpr hid1), hid1]
    exact ⟨e, by rw [e]; exact CalCompensationParams_status_indep _ _ _⟩

/-- Witness for C14: a device answering 0x58 (a BMP280) and a device answering 0x60, on a
handle that already holds a calibration. -/
theorem Init_identity_check_witness :
    (BME280_Init_id_seen { freshHandle with Comp := refCompH }
        (busDevice 0x58 refRegionA negRegionB) ≠ 0x60 ∧
      (BME280_Init { freshHandle with Comp := refCompH }
        (busDevice 0x58 refRegionA negRegionB)).1 = HAL_ERROR ∧
      BME280_Init_reads { freshHandle with Comp := refCompH }
        (busDevice 0x58 refRegionA negRegionB) = [(0xD0, 1)] ∧
      (BME280_Init { freshHandle with Comp := refCompH }
        (busDevice 0x58 refRegionA negRegionB)).2.Comp = refCompH) ∧
    (BME280_Init_id_seen freshHandle (busDevice 0x60 refRegionA negRegionB) = 0x60 ∧
      (BME280_Init freshHandle (busDevice 0x60 refRegionA negRegionB)).1
        = (BME280_CalCompensationParams freshHandle
            (busDevice 0x60 refRegionA negRegionB)).1) :=
  ⟨⟨by decide,
    ((Init_identity_check { freshHandle with Comp := refCompH }
      (busDevice 0x58 refRegionA negRegionB)).1 (by decide)).1,
    ((Init_identity_check { freshHandle with Comp := refCompH }
      (busDevice 0x58 refRegionA negRegionB)).1 (by decide)).2.1,
    ((Init_identity_check { freshHandle with Comp := refCompH }
      (busDevice 0x58 refRegionA negRegionB)).1 (by decide)).2.2.1⟩,
   ⟨by decide,
    ((Init_identity_check freshHandle (busDevice 0x60 refRegionA negRegionB)).2
      (by decide)).2⟩⟩

/-- C19 (as stated) fails: a fresh handle whose two region reads succeed and deliver
only zero bytes gets `HAL_OK`, and the calibration block it is left with is all-zero. -/
theorem CalCompensationParams_accepts_zero :
    (busOf (zeroRegion 26) (zeroRegion 7) 0x88 26) = (HAL_OK, zeroRegion 26) ∧
    (busOf (zeroRegion 26) (zeroRegion 7) 0xE1 7) = (HAL_OK, zeroRegion 7) ∧
    (BME280_CalCompensationParams freshHandle (busOf (zeroRegion 26) (zeroRegion 7))).1
      = HAL_OK ∧
    (BME280_CalCompensationParams freshHandle (busOf (zeroRegion 26) (zeroRegion 7))).2.Comp
      = zeroComp := by
  decide

/-- C19 (as amended): `BME280_CalCompensationParams` does not inspect the decoded
coefficients.  It returns `HAL_OK` exactly when both region reads return `HAL_OK`,
whatever bytes they deliver; in particular, when both reads succeed and deliver only
zero bytes it returns `HAL_OK`, and every pressure and humidity coefficient it stores
is zero. -/
theorem CalCompensationParams_ok_iff_reads_ok (hbme280 : BME280_Handle_t) (read : I2C_Read) :
    ((BME280_CalCompensationParams hbme280 read).1 = HAL_OK ↔
      ((read 0x88 26).1 = HAL_OK ∧ (read 0xE1 7).1 = HAL_OK)) ∧
    (BME280_CalCompensationParams hbme280 (busOf (zeroRegion 26) (zeroRegion 7))).1
      = HAL_OK ∧
    (BME280_CalCompensationParams hbme280
      (busOf (zeroRegion 26) (zeroRegion 7))).2.Comp.pressure_humidity_zero := by
  refine ⟨⟨CalCompensationParams_ok, fun h => ?_⟩, rfl, ?_⟩
  · unfold BME280_CalCompensationParams
    simp only [h.1, h.2, ne_eq, not_true_eq_false, if_false]
  · unfold BME280_Compensations_t.pressure_humidity_zero
    exact ⟨rfl, rfl, rfl, rfl, rfl, rfl, rfl, rfl, rfl, rfl, rfl, rfl, rfl, rfl, rfl⟩

/-! ## The shared fine temperature: the claims -/

theorem compensate_T_state_indep (adc_T : Int) (comp : BME280_Compensations_t)
    (g1 g2 : BME280_Globals) :
    BME280_compensate_T_int32 adc_T comp g1 = BME280_compensate_T_int32 adc_T comp g2 :=
  rfl

theorem compensate_P_keeps_state (adc_P : Int) (comp : BME280_Compensations_t)
    (g : BME280_Globals) (r : Int × BME280_Globals)
    (h : BME280_compensate_P_int64 adc_P comp g = some r) : r.2 = g := by
  rw [compensate_P_eq] at h
  split_ifs at h with h0
  · rw [← Option.some.inj h]
  · rcases hq : div64 (BME280_P_dividend adc_P comp g) (BME280_P_divisor comp g) with _ | q
    · rw [hq] at h
      exact Option.noConfusion h
    · rw [hq, Option.some_bind] at h
      rw [← Option.some.inj h]

theorem compensate_H_keeps_state (adc_H : Int) (comp : BME280_Compensations_t)
    (g : BME280_Globals) : (BME280_compensate_H_int32 adc_H comp g).2 = g :=
  rfl

theorem runCalls_keeps_state (cs : List CompCall) (g g' : BME280_Globals)
    (h : runCalls cs g = some g') : g' = g := by
  induction cs with
  | nil => exact (Option.some.inj h).symm
  | cons c cs ih =>
    cases c with
    | P adc_P comp =>
      rcases hr : BME280_compensate_P_int64 adc_P comp g with _ | r
      · have h1 : (BME280_compensate_P_int64 adc_P comp g).bind
            (fun r => runCalls cs r.2) = some g' := h
        rw [hr] at h1
        exact Option.noConfusion h1
      · have h1 : (BME280_compensate_P_int64 adc_P comp g).bind
            (fun r => runCalls cs r.2) = some g' := h
        rw [hr, Option.some_bind, compensate_P_keeps_state adc_P comp g r hr] at h1
        exact ih h1
    | H adc_H comp =>
      have h1 : runCalls cs (BME280_compensate_H_int32 adc_H comp g).2 = some g' := h
      rw [compensate_H_keeps_state] at h1
      exact ih h1

/-- C15: pressure and humidity compensation use the fine temperature of the most recent
temperature compensation, whichever calibration it was made with: after
`BME280_compensate_T_int32 a calA` followed by `BME280_compensate_T_int32 b calB`, the
outcomes of the pressure and humidity compensators for `calA` are those obtained after
`BME280_compensate_T_int32 b calB` alone.  A temperature call for a second instance
therefore changes the first instance's results: with the reference calibration, raw
counts 519888, 415148, 33519, and a second instance (`dig_T1 = 28000`, raw count 400000),
pressure goes from 25767233 to 24202450 and humidity from 72317 to another value. -/
theorem fine_temperature_shared (a b p h : Int) (calA calB : BME280_Compensations_t)
    (g : BME280_Globals) :
    (BME280_compensate_P_int64 p calA
        (BME280_compensate_T_int32 b calB (BME280_compensate_T_int32 a calA g).2).2
      = BME280_compensate_P_int64 p calA (BME280_compensate_T_int32 b calB g).2 ∧
     BME280_compensate_H_int32 h calA
        (BME280_compensate_T_int32 b calB (BME280_compensate_T_int32 a calA g).2).2
      = BME280_compensate_H_int32 h calA (BME280_compensate_T_int32 b calB g).2) ∧
    (BME280_compensate_P_int64 415148 refCompH
        (BME280_compensate_T_int32 519888 refCompH BME280_Globals.init).2
        = some (25767233, { t_fine := 128422 }) ∧
     BME280_compensate_P_int64 415148 refCompH
        (BME280_compensate_T_int32 400000 { refCompH with dig_T1 := 28000 }
          (BME280_compensate_T_int32 519888 refCompH BME280_Globals.init).2).2
        = some (24202450, { t_fine := -77582 }) ∧
     (24202450 : Int) ≠ 25767233) ∧
    ((BME280_compensate_H_int32 33519 refCompH
        (BME280_compensate_T_int32 519888 refCompH BME280_Globals.init).2).1 = 72317 ∧
     (BME280_compensate_H_int32 33519 refCompH
        (BME280_compensate_T_int32 400000 { refCompH with dig_T1 := 28000 }
          (BME280_compensate_T_int32 519888 refCompH BME280_Globals.init).2).2).1
        ≠ 72317) := by
  refine ⟨⟨?_, ?_⟩, by decide, by decide⟩
  · rw [compensate_T_state_indep b calB (BME280_compensate_T_int32 a calA g).2 g]
  · rw [compensate_T_state_indep b calB (BME280_compensate_T_int32 a calA g).2 g]

/-- C16: the pressure and humidity compensators leave the fine temperature unchanged for
every input: whenever one of them returns, the state is the one it was called in, so
after any sequence of calls of either of them the state is the one they started from and
a call with the same arguments has the same outcome. -/
theorem fine_temperature_frame (g : BME280_Globals) :
    (∀ adc_P comp r, BME280_compensate_P_int64 adc_P comp g = some r → r.2 = g) ∧
    (∀ adc_H comp, (BME280_compensate_H_int32 adc_H comp g).2 = g) ∧
    (∀ (cs : List CompCall) g', runCalls cs g = some g' → g' = g) ∧
    (∀ (cs : List CompCall) g' adc comp, runCalls cs g = some g' →
      BME280_compensate_P_int64 adc comp g' = BME280_compensate_P_int64 adc comp g ∧
      BME280_compensate_H_int32 adc comp g' = BME280_compensate_H_int32 adc comp g) := by
  refine ⟨fun adc_P comp r => compensate_P_keeps_state adc_P comp g r,
    fun adc_H comp => compensate_H_keeps_state adc_H comp g,
    fun cs g' => runCalls_keeps_state cs g g', fun cs g' adc comp hr => ?_⟩
  rw [runCalls_keeps_state cs g g' hr]
  exact ⟨rfl, rfl⟩

/-- Witness for C16: at fine temperature 128422 the reference pressure call returns
25767233 with the state unchanged, and after a pressure, a humidity and another pressure
call the state is still 128422 and the reference calls have the outcome they had
before. -/
theorem fine_temperature_frame_witness :
    (BME280_compensate_P_int64 415148 refCompH { t_fine := 128422 }
        = some (25767233, { t_fine := 128422 }) ∧
      runCalls [.P 415148 refCompH, .H 33519 refCompH, .P 415148 refCompH]
        { t_fine := 128422 } = some { t_fine := 128422 }) ∧
    ((25767233, ({ t_fine := 128422 } : BME280_Globals)) : Int × BME280_Globals).2
      = { t_fine := 128422 } ∧
    (BME280_compensate_P_int64 415148 refCompH { t_fine := 128422 }
        = BME280_compensate_P_int64 415148 refCompH { t_fine := 128422 } ∧
      BME280_compensate_H_int32 415148 refCompH { t_fine := 128422 }
        = BME280_compensate_H_int32 415148 refCompH { t_fine := 128422 }) :=
  by
  have hP : BME280_compensate_P_int64 415148 refCompH { t_fine := 128422 }
      = some (25767233, { t_fine := 128422 }) := by decide
  have hR : runCalls [.P 415148 refCompH, .H 33519 refCompH, .P 415148 refCompH]
      { t_fine := 128422 } = some { t_fine := 128422 } := by decide
  have h := fine_temperature_frame { t_fine := 128422 }
  have h1 := h.1 415148 refCompH (25767233, { t_fine := 128422 }) hP
  have h2 := h.2.2.2 [.P 415148 refCompH, .H 33519 refCompH, .P 415148 refCompH]
    { t_fine := 128422 } 415148 refCompH hR
  exact ⟨⟨hP, hR⟩, h1, h2⟩

/-! ## Totality of the pressure and humidity compensators: the claim -/

/-- When the exact result of every 32-bit operation fits `int32_t`, the code computes the
unbounded-integer formula. -/
theorem compensate_T_exact_of_no_overflow (adc_T : Int) (comp : BME280_Compensations_t)
    (g : BME280_Globals)
    (h : ∀ x ∈ BME280_T_exact_intermediates adc_T comp, InS32 x) :
    BME280_compensate_T_int32 adc_T comp g
      = ((BME280_T_exact adc_T comp).1, { t_fine := (BME280_T_exact adc_T comp).2 }) := by
  unfold BME280_T_exact_intermediates BME280_T_exact at h
  simp only [List.mem_cons, forall_eq_or_imp, List.mem_singleton, forall_eq,
    List.not_mem_nil, false_implies, implies_true, and_true] at h
  obtain ⟨h1, h2, h3, h4, h5, h6, h7, h8, h9⟩ := h
  unfold BME280_T_product2 at h6 h7 h8 h9
  unfold BME280_T_product1 at h3 h7 h8 h9
  unfold BME280_T_square at h5 h6 h7 h8 h9
  simp only [BME280_compensate_T_int32, BME280_T_exact, BME280_T_product1, BME280_T_product2,
    BME280_T_square, add32, sub32, mul32, shl32, sar32_eq_asr, asr,
    wrap32_of_inS32 h1, wrap32_of_inS32 h2, wrap32_of_inS32 h3, wrap32_of_inS32 h4,
    wrap32_of_inS32 h5, wrap32_of_inS32 h6, wrap32_of_inS32 h7, wrap32_of_inS32 h8,
    wrap32_of_inS32 h9]

/-- For a 20-bit raw count and coefficients in the ranges of their types, the three
products are the only operations that can leave the `int32_t` range. -/
theorem T_intermediates_fit (adc_T : Int) (comp : BME280_Compensations_t)
    (hadc : 0 ≤ adc_T ∧ adc_T < 1048576) (hT1 : InU16 comp.dig_T1)
    (hp1 : InS32 (BME280_T_product1 adc_T comp)) (hsq : InS32 (BME280_T_square adc_T comp))
    (hp2 : InS32 (BME280_T_product2 adc_T comp)) :
    ∀ x ∈ BME280_T_exact_intermediates adc_T comp, InS32 x := by
  unfold BME280_T_exact_intermediates BME280_T_exact
  simp only [List.mem_cons, forall_eq_or_imp, List.mem_singleton, forall_eq,
    List.not_mem_nil, false_implies, implies_true, and_true]
  generalize BME280_T_product1 adc_T comp = m1 at hp1 ⊢
  generalize BME280_T_square adc_T comp = sq at hsq ⊢
  generalize BME280_T_product2 adc_T comp = m2 at hp2 ⊢
  unfold InS32 at *
  unfold InU16 at hT1
  refine ⟨?_, ?_, hp1, ?_, hsq, hp2, ?_, ?_, ?_⟩ <;> omega

theorem refComp_T_products_fit (adc_T : Int) (hadc : 0 ≤ adc_T ∧ adc_T < 1048576) :
    InS32 (BME280_T_product1 adc_T refComp) ∧ InS32 (BME280_T_square adc_T refComp) ∧
    InS32 (BME280_T_product2 adc_T refComp) := by
  have hsq : 0 ≤ BME280_T_square adc_T refComp ∧
      BME280_T_square adc_T refComp ≤ 1446356961 := by
    unfold BME280_T_square
    show 0 ≤ (adc_T / 2 ^ 4 - 27504) * (adc_T / 2 ^ 4 - 27504) ∧
      (adc_T / 2 ^ 4 - 27504) * (adc_T / 2 ^ 4 - 27504) ≤ 1446356961
    have hd : -27504 ≤ adc_T / 2 ^ 4 - 27504 ∧ adc_T / 2 ^ 4 - 27504 ≤ 38031 := by omega
    generalize adc_T / 2 ^ 4 - 27504 = d at hd
    constructor <;> nlinarith
  refine ⟨?_, ?_, ?_⟩
  · unfold BME280_T_product1 InS32
    show -2147483648 ≤ (adc_T / 2 ^ 3 - 27504 * 2 ^ 1) * 26435 ∧
      (adc_T / 2 ^ 3 - 27504 * 2 ^ 1) * 26435 ≤ 2147483647
    omega
  · unfold InS32; omega
  · unfold BME280_T_product2 InS32
    generalize BME280_T_square adc_T refComp = sq at hsq
    show -2147483648 ≤ sq / 2 ^ 12 * (-1000) ∧ sq / 2 ^ 12 * (-1000) ≤ 2147483647
    omega

/-- C17 (as stated) fails: the raw count 1048575 with `dig_T1 = 0`, `dig_T2 = 32767`,
`dig_T3 = 0` is in range, yet the product of line 43 is 4294803457, outside `int32_t`;
the code returns -2 with fine temperature -80 where the unbounded formula gives 40958
and 2097072. -/
theorem compensate_T_overflows_steep :
    ((0 : Int) ≤ 1048575 ∧ (1048575 : Int) < 1048576 ∧ steepComp.WF) ∧
    (BME280_T_product1 1048575 steepComp = 4294803457 ∧
      ¬ InS32 (BME280_T_product1 1048575 steepComp)) ∧
    BME280_compensate_T_int32 1048575 steepComp BME280_Globals.init
      = (-2, { t_fine := -80 }) ∧
    BME280_T_exact 1048575 steepComp = (40958, 2097072) := by
  decide

/-- C17 (as amended): for every raw count in `[0, 2^20)` and every calibration block with
`dig_T1` in `[0, 65535]` whose three products `((adc_T >> 3) - (dig_T1 << 1)) * dig_T2`,
`((adc_T >> 4) - dig_T1)^2` and `(square >> 12) * dig_T3` fit in 32 bits, no 32-bit
intermediate overflows and the fine temperature and the returned value are those of the
formula over unbounded integers; the datasheet reference calibration meets the condition
at every raw count in `[0, 2^20)`. -/
theorem compensate_T_exact_when_products_fit (adc_T : Int) (comp : BME280_Compensations_t)
    (g : BME280_Globals) (hadc : 0 ≤ adc_T ∧ adc_T < 1048576) :
    (InU16 comp.dig_T1 → InS32 (BME280_T_product1 adc_T comp) →
      InS32 (BME280_T_square adc_T comp) → InS32 (BME280_T_product2 adc_T comp) →
      (∀ x ∈ BME280_T_exact_intermediates adc_T comp, InS32 x) ∧
      BME280_compensate_T_int32 adc_T comp g
        = ((BME280_T_exact adc_T comp).1, { t_fine := (BME280_T_exact adc_T comp).2 })) ∧
    ((∀ x ∈ BME280_T_exact_intermediates adc_T refComp, InS32 x) ∧
      BME280_compensate_T_int32 adc_T refComp g
        = ((BME280_T_exact adc_T refComp).1,
           { t_fine := (BME280_T_exact adc_T refComp).2 })) := by
  have key : ∀ c : BME280_Compensations_t, InU16 c.dig_T1 →
      InS32 (BME280_T_product1 adc_T c) → InS32 (BME280_T_square adc_T c) →
      InS32 (BME280_T_product2 adc_T c) →
      (∀ x ∈ BME280_T_exact_intermediates adc_T c, InS32 x) ∧
      BME280_compensate_T_int32 adc_T c g
        = ((BME280_T_exact adc_T c).1, { t_fine := (BME280_T_exact adc_T c).2 }) := by
    intro c hT1 hp1 hsq hp2
    have hall := T_intermediates_fit adc_T c hadc hT1 hp1 hsq hp2
    exact ⟨hall, compensate_T_exact_of_no_overflow adc_T c g hall⟩
  obtain ⟨r1, r2, r3⟩ := refComp_T_products_fit adc_T hadc
  exact ⟨key comp, key refComp (by decide) r1 r2 r3⟩

/-- Witness for C17 (as amended): the datasheet reference input. -/
theorem compensate_T_exact_when_products_fit_witness :
    (((0 : Int) ≤ 519888 ∧ (519888 : Int) < 1048576) ∧ InU16 refComp.dig_T1 ∧
      InS32 (BME280_T_product1 519888 refComp) ∧ InS32 (BME280_T_square 519888 refComp) ∧
      InS32 (BME280_T_product2 519888 refComp)) ∧
    BME280_compensate_T_int32 519888 refComp BME280_Globals.init
      = ((BME280_T_exact 519888 refComp).1,
         { t_fine := (BME280_T_exact 519888 refComp).2 }) ∧
    BME280_T_exact 519888 refComp = (2508, 128422) :=
  ⟨by decide,
   ((compensate_T_exact_when_products_fit 519888 refComp BME280_Globals.init
      (by decide)).1 (by decide) (by decide) (by decide) (by decide)).2,
   by decide⟩

end BME280

/-! # DS3231 real-time clock: the claims -/

namespace DS3231

/-- C20: for every value `v` in 0..99, `decToBCD v` has the tens digit `v / 10` in its
high nibble and the units digit `v % 10` in its low nibble, both at most 9 (so the result
is a byte, at most 0x99), and `BCDToDec (decToBCD v) = v`. -/
theorem BCD_roundtrip (v : Nat) (hv : v ≤ 99) :
    (decToBCD v >>> 4 = v / 10 ∧ decToBCD v &&& 0x0F = v % 10) ∧
    (v / 10 ≤ 9 ∧ v % 10 ≤ 9 ∧ decToBCD v ≤ 0x99) ∧
    BCDToDec (decToBCD v) = v := by
  have e : decToBCD v = 16 * (v / 10) + v % 10 := by
    unfold decToBCD
    exact BME280.packed12_of_bytes (by omega)
  unfold BCDToDec
  rw [e, Nat.shiftRight_eq_div_pow, Nat.and_pow_two_sub_one_eq_mod _ 4]
  omega

/-- Witness for C20: the largest two-digit value, 99, is encoded as 0x99 and decoded
back. -/
theorem BCD_roundtrip_witness :
    decToBCD 99 = 0x99 ∧ BCDToDec (decToBCD 99) = 99 :=
  ⟨by decide, (BCD_roundtrip 99 (by decide)).2.2⟩

open BME280 BME280.HAL_StatusTypeDef

theorem decToBCD_eq (v : Nat) : decToBCD v = 16 * (v / 10) + v % 10 := by
  unfold decToBCD
  exact BME280.packed12_of_bytes (by omega)

theorem toU8_decToBCD {v : Nat} (hv : v ≤ 99) : toU8 (decToBCD v) = decToBCD v := by
  unfold toU8
  rw [decToBCD_eq]
  omega

/-- C21: given a transport whose writes succeed, `DS3231_SetTime` returns `HAL_ERROR`
if and only if `hours > 23` or `minutes > 59` or `seconds > 59`; in that case the handle
(hence every register-buffer byte) is unchanged and no device write is issued; otherwise
registers 0x00, 0x01, 0x02 hold the BCD encodings of seconds, minutes and hours, and
these three bytes are written at 0x00. -/
theorem SetTime_validation (handle : DS3231_Handle_t) (bus : DS3231_Bus)
    (hw : ∀ a d, bus.write a d = HAL_OK) :
    ((DS3231_SetTime handle bus).1 = HAL_ERROR ↔
      (handle.time.hours > 23 ∨ handle.time.minutes > 59 ∨ handle.time.seconds > 59)) ∧
    ((handle.time.hours > 23 ∨ handle.time.minutes > 59 ∨ handle.time.seconds > 59) →
      DS3231_SetTime handle bus = (HAL_ERROR, handle, [])) ∧
    (¬ (handle.time.hours > 23 ∨ handle.time.minutes > 59 ∨ handle.time.seconds > 59) →
      (DS3231_SetTime handle bus).1 = HAL_OK ∧
      (DS3231_SetTime handle bus).2.1.Reg 0x00 = decToBCD handle.time.seconds ∧
      (DS3231_SetTime handle bus).2.1.Reg 0x01 = decToBCD handle.time.minutes ∧
      (DS3231_SetTime handle bus).2.1.Reg 0x02 = decToBCD handle.time.hours ∧
      (DS3231_SetTime handle bus).2.2
        = [(0x00, [decToBCD handle.time.seconds, decToBCD handle.time.minutes,
                   decToBCD handle.time.hours])]) := by
  by_cases hbad : handle.time.hours > 23 ∨ handle.time.minutes > 59 ∨ handle.time.seconds > 59
  · have e : DS3231_SetTime handle bus = (HAL_ERROR, handle, []) := by
      unfold DS3231_SetTime
      simp only
      rw [if_pos hbad]
    exact ⟨⟨fun _ => hbad, fun _ => by rw [e]⟩, fun _ => e, fun hn => absurd hbad hn⟩
  · have hs : handle.time.seconds ≤ 99 := by omega
    have hm : handle.time.minutes ≤ 99 := by omega
    have hh : handle.time.hours ≤ 99 := by omega
    have e : DS3231_SetTime handle bus
        = (HAL_OK,
           { handle with
             Reg := setReg (setReg (setReg handle.Reg 0x00 (decToBCD handle.time.seconds))
               0x01 (decToBCD handle.time.minutes)) 0x02 (decToBCD handle.time.hours) },
           [(0x00, [decToBCD handle.time.seconds, decToBCD handle.time.minutes,
                    decToBCD handle.time.hours])]) := by
      unfold DS3231_SetTime
      simp only
      rw [if_neg hbad, hw, toU8_decToBCD hs, toU8_decToBCD hm, toU8_decToBCD hh]
      simp [setReg]
    refine ⟨⟨fun h => ?_, fun h => absurd h hbad⟩, fun h => absurd h hbad, fun _ => ?_⟩
    · rw [e] at h
      exact absurd (show HAL_OK = HAL_ERROR from h) (by decide)
    · rw [e]
      simp [setReg]

/-- Witness for C21: 24:00:00 is rejected without any change, 23:59:58 is stored as
`58 59 23`. -/
theorem SetTime_validation_witness :
    ((mkHandle { hours := 24, minutes := 0, seconds := 0 }
          { date := 1, month := 1, year := 0 } sampleAlarm 0).time.hours > 23 ∧
      (DS3231_SetTime (mkHandle { hours := 24, minutes := 0, seconds := 0 }
          { date := 1, month := 1, year := 0 } sampleAlarm 0) (okBus [0])).1 = HAL_ERROR ∧
      (DS3231_SetTime (mkHandle { hours := 24, minutes := 0, seconds := 0 }
          { date := 1, month := 1, year := 0 } sampleAlarm 0) (okBus [0])).2.2 = []) ∧
    ((DS3231_SetTime (mkHandle { hours := 23, minutes := 59, seconds := 58 }
          { date := 1, month := 1, year := 0 } sampleAlarm 0) (okBus [0])).1 = HAL_OK ∧
      (DS3231_SetTime (mkHandle { hours := 23, minutes := 59, seconds := 58 }
          { date := 1, month := 1, year := 0 } sampleAlarm 0) (okBus [0])).2.2
        = [(0x00, [0x58, 0x59, 0x23])]) :=
  ⟨⟨by decide,
    ((SetTime_validation (mkHandle { hours := 24, minutes := 0, seconds := 0 }
        { date := 1, month := 1, year := 0 } sampleAlarm 0) (okBus [0])
        (fun _ _ => rfl)).1).2 (by decide),
    by decide⟩,
   ⟨((SetTime_validation (mkHandle { hours := 23, minutes := 59, seconds := 58 }
        { date := 1, month := 1, year := 0 } sampleAlarm 0) (okBus [0])
        (fun _ _ => rfl)).2.2 (by decide)).1,
    by decide⟩⟩

/-- The validation that `DS3231_SetDate` performs: with a transport whose writes succeed
it returns `HAL_ERROR` exactly when `date > 31`, `month < 1`, `month > 12` or
`year > 99`; a date of 0 is not among these. -/
theorem SetDate_error_iff (handle : DS3231_Handle_t) (bus : DS3231_Bus)
    (hw : ∀ a d, bus.write a d = HAL_OK) :
    (DS3231_SetDate handle bus).1 = HAL_ERROR ↔
      (handle.date.date > 31 ∨ handle.date.month < 1 ∨ handle.date.month > 12 ∨
        handle.date.year > 99) := by
  unfold DS3231_SetDate
  simp only
  split_ifs with hbad
  · exact ⟨fun _ => hbad, fun _ => rfl⟩
  · rw [hw]
    exact ⟨fun h => absurd (show HAL_OK = HAL_ERROR from h) (by decide), fun h => absurd h hbad⟩

/-- C22 (evaluation at the failing input): the date 0 January 2000, outside the
documented range 1..31, on a transport that succeeds.  `DS3231_SetDate` returns `HAL_OK`,
stores `00 01 00` in registers 0x04..0x06 and writes them to the device, although the
day-of-month 0 is below the documented minimum. -/
theorem SetDate_accepts_day_zero :
    ¬ (1 ≤ (mkHandle noon { date := 0, month := 1, year := 0 } sampleAlarm 0).date.date) ∧
    (DS3231_SetDate (mkHandle noon { date := 0, month := 1, year := 0 } sampleAlarm 0)
      (okBus [0])).1 = HAL_OK ∧
    (DS3231_SetDate (mkHandle noon { date := 0, month := 1, year := 0 } sampleAlarm 0)
      (okBus [0])).2.2 = [(0x04, [0x00, 0x01, 0x00])] := by
  decide

/-- The raw value of `DS3231_GetTemp` on a successful read of two bytes: it is
`4 * msb + lsb / 64`, never negative. -/
theorem GetTemp_raw_value (handle : DS3231_Handle_t) (msb lsb : Nat)
    (hm : msb < 256) (hl : lsb < 256) :
    DS3231_GetTemp handle (okBus [msb, lsb])
      = (HAL_OK,
         { handle with Reg := setReg (setReg handle.Reg 0x11 msb) 0x12 lsb },
         ((4 * msb + lsb / 64 : Nat) : Int)) := by
  have e1 : wrap16 ((msb <<< 2 : Nat) : Int) = ((msb <<< 2 : Nat) : Int) := by
    rw [Nat.shiftLeft_eq]
    unfold wrap16
    omega
  have e2 : (msb <<< 2) ||| (lsb >>> 6) = 4 * msb + lsb / 64 := by
    rw [Nat.shiftLeft_eq, Nat.shiftRight_eq_div_pow, Nat.mul_comm,
      ← Nat.mul_add_lt_is_or (show lsb / 2 ^ 6 < 2 ^ 2 by omega) msb]
    omega
  have e3 : wrap16 ((4 * msb + lsb / 64 : Nat) : Int) = ((4 * msb + lsb / 64 : Nat) : Int) := by
    unfold wrap16
    omega
  unfold DS3231_GetTemp
  simp only [okBus, List.getD_cons_zero, List.getD_cons_succ, if_true]
  have r11 : setReg (setReg handle.Reg 0x11 msb) 0x12 lsb 0x11 = msb := by simp [setReg]
  have r12 : setReg (setReg handle.Reg 0x11 msb) 0x12 lsb 0x12 = lsb := by simp [setReg]
  rw [r11, r12, e1]
  show (HAL_OK, _, wrap16 (((msb <<< 2 ||| lsb >>> 6 : Nat) : Int))) = _
  rw [e2, e3]

/-- C23 (evaluation at the failing input): the register bytes `FF C0`, the 10-bit
two's-complement pattern `0x3FF`, i.e. -1 (-0.25 °C).  `DS3231_GetTemp` computes the raw
value 1023 (255.75 °C): the cast to `int16_t` is applied to `msb << 2`, which is at most
1020, so no sign is ever produced. -/
theorem GetTemp_not_sign_extended :
    twos10 (0xFF * 4 + 0xC0 / 64) = -1 ∧
    (DS3231_GetTemp (mkHandle noon newYear sampleAlarm 0) (okBus [0xFF, 0xC0])).1 = HAL_OK ∧
    (DS3231_GetTemp (mkHandle noon newYear sampleAlarm 0) (okBus [0xFF, 0xC0])).2.2 = 1023 := by
  decide

/-- C24 (evaluation at the failing input): `RS1 = 2`, `RS2 = 0` on a handle whose
control byte is 0x04 and a transport that succeeds.  The call returns `HAL_OK`, replaces
the control byte by 0x10 and writes it, where the claim requires `HAL_ERROR` and an
unchanged control byte: the check of line 409 rejects only when both inputs are
invalid. -/
theorem OutputPWM_accepts_invalid_RS1 :
    ((2 : Nat) ≠ 0 ∧ (2 : Nat) ≠ 1) ∧
    (DS3231_OutputPWM (mkHandle noon newYear sampleAlarm 0x04) 0 2 (okBus [0])).1 = HAL_OK ∧
    (DS3231_OutputPWM (mkHandle noon newYear sampleAlarm 0x04) 0 2 (okBus [0])).2.1.Reg 0x0E
      = 0x10 ∧
    (DS3231_OutputPWM (mkHandle noon newYear sampleAlarm 0x04) 0 2 (okBus [0])).2.2
      = [(0x0E, [0x10])] := by
  decide

/-- The part of C24 that the code does satisfy: for `RS1`, `RS2` in `{0, 1}` the control
byte written is `8 * RS1 + 16 * RS2`, so `RS1` is bit 3, `RS2` is bit 4 and bit 2 is
clear; and the call is rejected, leaving the handle unchanged, when both inputs are
outside `{0, 1}`. -/
theorem OutputPWM_valid_inputs (handle : DS3231_Handle_t) (RS2 RS1 : Nat) (bus : DS3231_Bus) :
    (RS1 ≤ 1 → RS2 ≤ 1 →
      (DS3231_OutputPWM handle RS2 RS1 bus).2.1.Reg 0x0E = 8 * RS1 + 16 * RS2 ∧
      (DS3231_OutputPWM handle RS2 RS1 bus).2.2 = [(0x0E, [8 * RS1 + 16 * RS2])]) ∧
    (1 < RS1 → 1 < RS2 → DS3231_OutputPWM handle RS2 RS1 bus = (HAL_ERROR, handle, [])) := by
  constructor
  · intro h1 h2
    have e : toU8 ((RS1 <<< 3) ||| (RS2 <<< 4)) = 8 * RS1 + 16 * RS2 := by
      unfold toU8
      interval_cases RS1 <;> interval_cases RS2 <;> decide
    have hc : ¬ (RS1 ≠ 0 ∧ RS1 ≠ 1 ∧ RS2 ≠ 0 ∧ RS2 ≠ 1) := by omega
    unfold DS3231_OutputPWM
    rw [if_neg hc]
    simp [setReg, e]
  · intro h1 h2
    have hc : RS1 ≠ 0 ∧ RS1 ≠ 1 ∧ RS2 ≠ 0 ∧ RS2 ≠ 1 := by omega
    unfold DS3231_OutputPWM
    rw [if_pos hc]

theorem bcd_decode_plain {v : Nat} (hv : v ≤ 59) :
    toU8 ((toU8 (decToBCD v) &&& 15) + toU8 (decToBCD v) >>> 4 * 10) = v := by
  rw [toU8_decToBCD (by omega), decToBCD_eq, Nat.shiftRight_eq_div_pow,
    Nat.and_pow_two_sub_one_eq_mod _ 4]
  unfold toU8
  omega

theorem bcd_decode_masked {v : Nat} (hv : v ≤ 59) :
    toU8 ((toU8 (128 ||| decToBCD v) &&& 15) + toU8 (128 ||| decToBCD v) >>> 4 * 10)
      = v + 80 := by
  have hb : decToBCD v < 2 ^ 7 := by rw [decToBCD_eq]; omega
  have e : 128 ||| decToBCD v = 128 + (16 * (v / 10) + v % 10) := by
    have h := Nat.mul_add_lt_is_or hb 1
    rw [show (2 : Nat) ^ 7 * 1 = 128 from rfl] at h
    rw [← h, decToBCD_eq]
  have e1 : toU8 (128 + (16 * (v / 10) + v % 10)) = 16 * (8 + v / 10) + v % 10 := by
    unfold toU8
    omega
  rw [e, e1, Nat.shiftRight_eq_div_pow, Nat.and_pow_two_sub_one_eq_mod _ 4]
  have e2 : (16 * (8 + v / 10) + v % 10) % 2 ^ 4 = v % 10 := by omega
  have e3 : (16 * (8 + v / 10) + v % 10) / 2 ^ 4 = 8 + v / 10 := by omega
  rw [e2, e3]
  unfold toU8
  omega

/-- The alarm registers that `DS3231_SetAlarm1` leaves once its validation has passed,
whatever the transport answers. -/
theorem SetAlarm1_registers (mode : sMode_t) (handle : DS3231_Handle_t) (bus : DS3231_Bus)
    (hv : ¬ (handle.alarm1.hours > 23 ∨ handle.alarm1.minutes > 59 ∨
      handle.alarm1.seconds > 59 ∨ (handle.alarm1.dayOfWeek < 1 ∨ handle.alarm1.dayOfWeek > 7) ∨
      handle.alarm1.date < 1 ∨ handle.alarm1.date > 31)) :
    (DS3231_SetAlarm1 mode handle bus).2.1.Reg 0x07
      = toU8 ((alarm1_masks mode handle.alarm1).1 ||| decToBCD handle.alarm1.seconds) ∧
    (DS3231_SetAlarm1 mode handle bus).2.1.Reg 0x08
      = toU8 ((alarm1_masks mode handle.alarm1).2.1 ||| decToBCD handle.alarm1.minutes) ∧
    (DS3231_SetAlarm1 mode handle bus).2.1.Reg 0x09
      = toU8 ((alarm1_masks mode handle.alarm1).2.2.1 ||| decToBCD handle.alarm1.hours) := by
  unfold DS3231_SetAlarm1 DS3231_CLearAlarmsFlags
  simp only
  rw [if_neg hv]
  split_ifs <;> simp [setReg]

/-- What `DS3231_GetAlarm1` decodes from the bytes that a validated `DS3231_SetAlarm1`
produced: the seconds always come back; minutes and hours come back increased by 80
whenever their alarm-mask bit (bit 7) was set, i.e. minutes in mode `EveryMinute` and
hours in modes `EveryMinute` and `EveryHour`. -/
theorem GetAlarm1_after_SetAlarm1 (mode : sMode_t) (handle : DS3231_Handle_t)
    (bus : DS3231_Bus)
    (hv : ¬ (handle.alarm1.hours > 23 ∨ handle.alarm1.minutes > 59 ∨
      handle.alarm1.seconds > 59 ∨ (handle.alarm1.dayOfWeek < 1 ∨ handle.alarm1.dayOfWeek > 7) ∨
      handle.alarm1.date < 1 ∨ handle.alarm1.date > 31)) :
    (DS3231_GetAlarm1 (DS3231_SetAlarm1 mode handle bus).2.1
        (okBus (alarm1_bytes (DS3231_SetAlarm1 mode handle bus).2.1))).2.alarm1.seconds
      = handle.alarm1.seconds ∧
    (DS3231_GetAlarm1 (DS3231_SetAlarm1 mode handle bus).2.1
        (okBus (alarm1_bytes (DS3231_SetAlarm1 mode handle bus).2.1))).2.alarm1.minutes
      = handle.alarm1.minutes + (if mode = .EveryMinute then 80 else 0) ∧
    (DS3231_GetAlarm1 (DS3231_SetAlarm1 mode handle bus).2.1
        (okBus (alarm1_bytes (DS3231_SetAlarm1 mode handle bus).2.1))).2.alarm1.hours
      = handle.alarm1.hours
        + (if mode = .EveryMinute ∨ mode = .EveryHour then 80 else 0) := by
  obtain ⟨r7, r8, r9⟩ := SetAlarm1_registers mode handle bus hv
  have hs : handle.alarm1.seconds ≤ 59 := by omega
  have hm : handle.alarm1.minutes ≤ 59 := by omega
  have hh : handle.alarm1.hours ≤ 59 := by omega
  generalize DS3231_SetAlarm1 mode handle bus = res at r7 r8 r9 ⊢
  unfold DS3231_GetAlarm1
  simp only [okBus, alarm1_bytes, List.getD_cons_zero, List.getD_cons_succ, if_true]
  simp only [setReg, if_true, Nat.reduceEqDiff, if_false, r7, r8, r9]
  cases mode <;>
    simp [alarm1_masks, bcd_decode_plain hs, bcd_decode_plain hm, bcd_decode_plain hh,
      bcd_decode_masked hm, bcd_decode_masked hh]

/-- C27 (evaluation at the failing input): the valid alarm 12:30:15 (Monday, the 1st)
in mode `EveryMinute` on a transport that succeeds.  `DS3231_SetAlarm1` returns `HAL_OK`
and produces the bytes `15 B0 92 80`; decoding exactly these four bytes,
`DS3231_GetAlarm1` yields seconds 15 but minutes 110 and hours 92, outside the documented
field ranges 0-59 and 0-23: the alarm-mask bit 7 is not removed before the BCD
conversion. -/
theorem GetAlarm1_misreads_masked_alarm :
    (DS3231_SetAlarm1 .EveryMinute (mkHandle noon newYear sampleAlarm 0) (okBus [0])).1
      = HAL_OK ∧
    alarm1_bytes
        (DS3231_SetAlarm1 .EveryMinute (mkHandle noon newYear sampleAlarm 0) (okBus [0])).2.1
      = [0x15, 0xB0, 0x92, 0x80] ∧
    (DS3231_GetAlarm1
        (DS3231_SetAlarm1 .EveryMinute (mkHandle noon newYear sampleAlarm 0) (okBus [0])).2.1
        (okBus [0x15, 0xB0, 0x92, 0x80])).1 = HAL_OK ∧
    ((DS3231_GetAlarm1
        (DS3231_SetAlarm1 .EveryMinute (mkHandle noon newYear sampleAlarm 0) (okBus [0])).2.1
        (okBus [0x15, 0xB0, 0x92, 0x80])).2.alarm1.seconds = 15 ∧
     (DS3231_GetAlarm1
        (DS3231_SetAlarm1 .EveryMinute (mkHandle noon newYear sampleAlarm 0) (okBus [0])).2.1
        (okBus [0x15, 0xB0, 0x92, 0x80])).2.alarm1.minutes = 110 ∧
     (DS3231_GetAlarm1
        (DS3231_SetAlarm1 .EveryMinute (mkHandle noon newYear sampleAlarm 0) (okBus [0])).2.1
        (okBus [0x15, 0xB0, 0x92, 0x80])).2.alarm1.hours = 92) := by
  decide

/-- The control byte after a successful `DS3231_SetAlarm1` is always 0x05, whatever it
was before: line 175 assigns it. -/
theorem SetAlarm1_control (mode : sMode_t) (handle : DS3231_Handle_t) (bus : DS3231_Bus)
    (hok : (DS3231_SetAlarm1 mode handle bus).1 = HAL_OK) :
    (DS3231_SetAlarm1 mode handle bus).2.1.Reg 0x0E = 0x05 := by
  unfold DS3231_SetAlarm1 at hok ⊢
  simp only at hok ⊢
  split_ifs at hok ⊢ <;> simp_all [setReg]

/-- C28 (evaluation at the failing input): a handle with control byte 0 and valid alarms,
on a transport that succeeds.  `DS3231_SetAlarm2` returns `HAL_OK` and leaves the control
byte 0x06 (Alarm-2 enable set); the following `DS3231_SetAlarm1` returns `HAL_OK` and
leaves the control byte 0x05, written to the device: the Alarm-2 enable bit (bit 1) has
been cleared, where `DS3231_SetAlarm2` itself keeps the other bits by OR-ing. -/
theorem SetAlarm1_clears_alarm2_enable :
    ((DS3231_SetAlarm2 .Once (mkHandle noon newYear sampleAlarm 0) (okBus [0])).1 = HAL_OK ∧
      (DS3231_SetAlarm2 .Once (mkHandle noon newYear sampleAlarm 0) (okBus [0])).2.1.Reg 0x0E
        = 0x06) ∧
    ((DS3231_SetAlarm1 .Once
        (DS3231_SetAlarm2 .Once (mkHandle noon newYear sampleAlarm 0) (okBus [0])).2.1
        (okBus [0])).1 = HAL_OK ∧
      (DS3231_SetAlarm1 .Once
        (DS3231_SetAlarm2 .Once (mkHandle noon newYear sampleAlarm 0) (okBus [0])).2.1
        (okBus [0])).2.1.Reg 0x0E = 0x05 ∧
      (DS3231_SetAlarm1 .Once
        (DS3231_SetAlarm2 .Once (mkHandle noon newYear sampleAlarm 0) (okBus [0])).2.1
        (okBus [0])).2.1.Reg 0x0E &&& 0x02 = 0 ∧
      (DS3231_SetAlarm1 .Once
        (DS3231_SetAlarm2 .Once (mkHandle noon newYear sampleAlarm 0) (okBus [0])).2.1
        (okBus [0])).2.2.getLast? = some (0x0E, [0x05])) := by
  decide

end DS3231

/-! # BME280: reading a sample, the claim -/

namespace BME280

open HAL_StatusTypeDef

theorem assemble20 {msb lsb xlsb : Nat} (hm : msb < 256) (hl : lsb < 256) (hx : xlsb < 256) :
    toU32n (msb <<< 12) ||| toU32n (lsb <<< 4) ||| (toU32n xlsb >>> 4)
      = msb * 4096 + lsb * 16 + xlsb / 16 := by
  have e1 : toU32n (msb <<< 12) = 2 ^ 12 * msb := by
    unfold toU32n; rw [Nat.shiftLeft_eq]; omega
  have e2 : toU32n (lsb <<< 4) = lsb * 16 := by
    unfold toU32n; rw [Nat.shiftLeft_eq]; omega
  have e3 : toU32n xlsb >>> 4 = xlsb / 16 := by
    unfold toU32n; rw [Nat.shiftRight_eq_div_pow]; omega
  rw [e1, e2, e3, ← Nat.mul_add_lt_is_or (show lsb * 16 < 2 ^ 12 by omega) msb,
    show 2 ^ 12 * msb + lsb * 16 = 2 ^ 4 * (256 * msb + lsb) by omega,
    ← Nat.mul_add_lt_is_or (show xlsb / 16 < 2 ^ 4 by omega) (256 * msb + lsb)]
  omega

theorem assemble16 {msb lsb : Nat} (hm : msb < 256) (hl : lsb < 256) :
    toU32n (msb <<< 8) ||| toU32n lsb = msb * 256 + lsb := by
  have e1 : toU32n (msb <<< 8) = 2 ^ 8 * msb := by
    unfold toU32n; rw [Nat.shiftLeft_eq]; omega
  have e2 : toU32n lsb = lsb := by
    unfold toU32n; omega
  rw [e1, e2, ← Nat.mul_add_lt_is_or (show lsb < 2 ^ 8 by omega) msb]
  omega

theorem count20_cast {msb lsb xlsb : Nat} (hm : msb < 256) (hl : lsb < 256)
    (hx : xlsb < 256) :
    wrap32 ((toU32n (msb <<< 12) ||| toU32n (lsb <<< 4) ||| (toU32n xlsb >>> 4) : Nat) : Int)
      = ((msb * 4096 + lsb * 16 + xlsb / 16 : Nat) : Int) ∧
    (0 : Int) ≤ ((msb * 4096 + lsb * 16 + xlsb / 16 : Nat) : Int) ∧
    ((msb * 4096 + lsb * 16 + xlsb / 16 : Nat) : Int) < 1048576 := by
  rw [assemble20 hm hl hx]
  unfold wrap32
  omega

theorem count16_cast {msb lsb : Nat} (hm : msb < 256) (hl : lsb < 256) :
    wrap32 ((toU32n (msb <<< 8) ||| toU32n lsb : Nat) : Int)
      = ((msb * 256 + lsb : Nat) : Int) ∧
    (0 : Int) ≤ ((msb * 256 + lsb : Nat) : Int) ∧ ((msb * 256 + lsb : Nat) : Int) < 65536 := by
  rw [assemble16 hm hl]
  unfold wrap32
  omega

/-- For a byte-valued register shadow and a successful read, the count assembled by
`BME280_GetTemp` is `msb * 4096 + lsb * 16 + xlsb div 16` of the shadow fields, whatever
bytes the transport delivered; likewise for `BME280_GetPress` when it returns and, with
`msb * 256 + lsb`, for `BME280_GetHum`. -/
theorem sample_counts_of_shadow (hbme280 : BME280_Handle_t) (read : I2C_Read)
    (g : BME280_Globals) (hwf : hbme280.Reg.WF) :
    ((read 0xFA 3).1 = HAL_OK →
      (BME280_GetTemp hbme280 read g).adc
        = some ((hbme280.Reg.temp_msb_reg * 4096 + hbme280.Reg.temp_lsb_reg * 16
            + hbme280.Reg.temp_xlsb_reg / 16 : Nat) : Int)) ∧
    ((read 0xF7 3).1 = HAL_OK → ∀ s, BME280_GetPress hbme280 read g = some s →
      s.adc
        = some ((hbme280.Reg.press_msb_reg * 4096 + hbme280.Reg.press_lsb_reg * 16
            + hbme280.Reg.press_xlsb_reg / 16 : Nat) : Int)) ∧
    ((read 0xFD 2).1 = HAL_OK →
      (BME280_GetHum hbme280 read g).adc
        = some ((hbme280.Reg.hum_msb_reg * 256 + hbme280.Reg.hum_lsb_reg : Nat) : Int)) := by
  obtain ⟨_, _, _, _, _, _, pm, pl, px, tm, tl, tx, hm, hl⟩ := hwf
  refine ⟨fun hs => ?_, fun hs s he => ?_, fun hs => ?_⟩
  · unfold BME280_GetTemp
    simp only [hs, ne_eq, not_true_eq_false, if_false]
    rw [(count20_cast tm tl tx).1]
  · unfold BME280_GetPress at he
    simp only [hs, ne_eq, not_true_eq_false, if_false] at he
    rw [(count20_cast pm pl px).1] at he
    rcases hr : BME280_compensate_P_int64
        ((hbme280.Reg.press_msb_reg * 4096 + hbme280.Reg.press_lsb_reg * 16
            + hbme280.Reg.press_xlsb_reg / 16 : Nat) : Int) hbme280.Comp g with _ | r
    · rw [hr] at he
      exact Option.noConfusion he
    · rw [hr, Option.some_bind] at he
      rw [← Option.some.inj he]
  · unfold BME280_GetHum
    simp only [hs, ne_eq, not_true_eq_false, if_false]
    rw [(count16_cast hm hl).1]

/-- The outcome of each of the three sample functions depends on the transport only
through the status of the read: the bytes delivered have no influence. -/
theorem sample_indep_of_bytes (hbme280 : BME280_Handle_t) (read1 read2 : I2C_Read)
    (g : BME280_Globals) :
    ((read1 0xFA 3).1 = (read2 0xFA 3).1 →
      BME280_GetTemp hbme280 read1 g = BME280_GetTemp hbme280 read2 g) ∧
    ((read1 0xF7 3).1 = (read2 0xF7 3).1 →
      BME280_GetPress hbme280 read1 g = BME280_GetPress hbme280 read2 g) ∧
    ((read1 0xFD 2).1 = (read2 0xFD 2).1 →
      BME280_GetHum hbme280 read1 g = BME280_GetHum hbme280 read2 g) := by
  refine ⟨fun h => ?_, fun h => ?_, fun h => ?_⟩
  · unfold BME280_GetTemp
    rw [h]
  · unfold BME280_GetPress
    rw [h]
  · unfold BME280_GetHum
    rw [h]

/-- C25 fails: on an initialised handle with a zeroed register shadow, whose transport
delivers the datasheet reference sample (temperature bytes `7E ED 00`, pressure bytes
`65 5A C0`, humidity bytes `82 EF`) with status `HAL_OK`, the three sample functions
hand the transport the destination 0 (the value of the `msb` field, not its address),
return `HAL_OK` and assemble the raw count 0 from the untouched shadow, where
`msb * 4096 + lsb * 16 + xlsb div 16` of the bytes read is 519888 and 415148 and
`msb * 256 + lsb` is 33519.  The count is still 0 when the transport delivers the bytes
`FF FF FF`, and a shadow that already holds `7E ED 00` gives 519888, with destination
0x7E, when the transport delivers zero bytes.  `BME280_Init`, which passes the address
of its field, does store the byte it reads. -/
theorem sample_functions_ignore_bytes_read :
    (sampleBus [0x7E, 0xED, 0x00] [0x65, 0x5A, 0xC0] [0x82, 0xEF] 0xFA 3
        = (HAL_OK, [0x7E, 0xED, 0x00]) ∧
      sampleBus [0x7E, 0xED, 0x00] [0x65, 0x5A, 0xC0] [0x82, 0xEF] 0xF7 3
        = (HAL_OK, [0x65, 0x5A, 0xC0]) ∧
      sampleBus [0x7E, 0xED, 0x00] [0x65, 0x5A, 0xC0] [0x82, 0xEF] 0xFD 2
        = (HAL_OK, [0x82, 0xEF])) ∧
    ((0x7E * 4096 + 0xED * 16 + 0x00 / 16 : Nat) = 519888 ∧
      (0x65 * 4096 + 0x5A * 16 + 0xC0 / 16 : Nat) = 415148 ∧
      (0x82 * 256 + 0xEF : Nat) = 33519) ∧
    BME280_GetTemp readyHandle
        (sampleBus [0x7E, 0xED, 0x00] [0x65, 0x5A, 0xC0] [0x82, 0xEF]) BME280_Globals.init
      = { status := HAL_OK, dest := 0, adc := some 0, compensated := some (-14088),
          g := { t_fine := -721301 } } ∧
    BME280_GetPress readyHandle
        (sampleBus [0x7E, 0xED, 0x00] [0x65, 0x5A, 0xC0] [0x82, 0xEF]) BME280_Globals.init
      = some { status := HAL_OK, dest := 0, adc := some 0, compensated := some 42589278,
               g := BME280_Globals.init } ∧
    BME280_GetHum readyHandle
        (sampleBus [0x7E, 0xED, 0x00] [0x65, 0x5A, 0xC0] [0x82, 0xEF]) BME280_Globals.init
      = { status := HAL_OK, dest := 0, adc := some 0, compensated := some 0,
          g := BME280_Globals.init } ∧
    ((BME280_GetTemp readyHandle (sampleBus [0xFF, 0xFF, 0xFF] [] [])
        BME280_Globals.init).adc = some 0 ∧
      (BME280_GetTemp { readyHandle with Reg := refRegs } (sampleBus [0, 0, 0] [] [])
        BME280_Globals.init).adc = some 519888 ∧
      (BME280_GetTemp { readyHandle with Reg := refRegs } (sampleBus [0, 0, 0] [] [])
        BME280_Globals.init).dest = 0x7E) ∧
    (BME280_Init freshHandle (busDevice 0x60 refRegionA negRegionB)).2.Reg.id_reg = 0x60 := by
  decide

end BME280

/-! # ADS1115: the claim -/

namespace ADS1115

open BME280 BME280.HAL_StatusTypeDef

theorem shiftRight_or (a b k : Nat) : (a ||| b) >>> k = a >>> k ||| b >>> k := by
  apply Nat.eq_of_testBit_eq
  intro i
  simp only [Nat.testBit_shiftRight, Nat.testBit_or]

theorem shiftRight_and (a b k : Nat) : (a &&& b) >>> k = a >>> k &&& b >>> k := by
  apply Nat.eq_of_testBit_eq
  intro i
  simp only [Nat.testBit_shiftRight, Nat.testBit_and]

/-- Clearing bits 14..12 of a 16-bit value and OR-ing in `channel << 12`, as lines 93-94
do: the result has the channel number in bits 14..12 and the old bits elsewhere. -/
theorem mux_replace (v c : Nat) (hv : v < 65536) (hc : c ≤ 7) :
    toU16 (toU16 (v &&& 0xFFFF8FFF) ||| (toU16 c <<< 12)) / 4096 % 8 = c ∧
    toU16 (toU16 (v &&& 0xFFFF8FFF) ||| (toU16 c <<< 12)) % 4096 = v % 4096 ∧
    toU16 (toU16 (v &&& 0xFFFF8FFF) ||| (toU16 c <<< 12)) / 32768 = v / 32768 ∧
    toU16 (toU16 (v &&& 0xFFFF8FFF) ||| (toU16 c <<< 12)) < 65536 := by
  have hA : v &&& 0xFFFF8FFF < 2 ^ 16 := Nat.lt_of_le_of_lt Nat.and_le_left hv
  have eA : toU16 (v &&& 0xFFFF8FFF) = v &&& 0xFFFF8FFF := Nat.mod_eq_of_lt hA
  have eB : toU16 c <<< 12 = 4096 * c := by
    unfold toU16
    rw [Nat.shiftLeft_eq]
    omega
  have hB : 4096 * c < 2 ^ 16 := by omega
  have hW : (v &&& 0xFFFF8FFF) ||| 4096 * c < 2 ^ 16 := Nat.or_lt_two_pow hA hB
  have eW : toU16 ((v &&& 0xFFFF8FFF) ||| 4096 * c) = (v &&& 0xFFFF8FFF) ||| 4096 * c :=
    Nat.mod_eq_of_lt hW
  rw [eA, eB, eW]
  have low : ((v &&& 0xFFFF8FFF) ||| 4096 * c) % 4096 = v % 4096 := by
    rw [← Nat.and_pow_two_sub_one_eq_mod _ 12, Nat.and_distrib_right, Nat.and_assoc,
      show (0xFFFF8FFF : Nat) &&& (2 ^ 12 - 1) = 2 ^ 12 - 1 by decide,
      Nat.and_pow_two_sub_one_eq_mod, Nat.and_pow_two_sub_one_eq_mod,
      show 4096 * c % 2 ^ 12 = 0 by omega, Nat.or_zero]
  have mid : (((v &&& 0xFFFF8FFF) ||| 4096 * c) >>> 12) % 8 = c := by
    rw [← Nat.and_pow_two_sub_one_eq_mod _ 3, shiftRight_or, shiftRight_and,
      Nat.and_distrib_right, Nat.and_assoc,
      show ((0xFFFF8FFF : Nat) >>> 12) &&& (2 ^ 3 - 1) = 0 by decide, Nat.and_zero,
      Nat.zero_or, Nat.and_pow_two_sub_one_eq_mod, Nat.shiftRight_eq_div_pow]
    omega
  have high : ((v &&& 0xFFFF8FFF) ||| 4096 * c) >>> 15 = v / 32768 := by
    rw [shiftRight_or, shiftRight_and,
      show (0xFFFF8FFF : Nat) >>> 15 = 2 ^ 17 - 1 by decide,
      Nat.and_pow_two_sub_one_eq_mod, Nat.shiftRight_eq_div_pow, Nat.shiftRight_eq_div_pow,
      show 4096 * c / 2 ^ 15 = 0 by omega, Nat.or_zero]
    omega
  rw [Nat.shiftRight_eq_div_pow] at mid high
  exact ⟨mid, low, high, hW⟩

theorem SetChannel_config_value (hads1115 : ADS1115_Handle_t) (channel : Nat)
    (bus : ADS1115_Bus) :
    (ADS1115_SetChannel hads1115 channel bus HAL_OK).2.1.Reg 0x01
      = toU16 (toU16 ((ADS1115_ReadConfigReg hads1115 bus).2.1.Reg 0x01 &&& 0xFFFF8FFF)
          ||| (toU16 channel <<< 12)) := by
  unfold ADS1115_SetChannel
  simp only [ne_eq, not_true_eq_false, if_false]
  split_ifs <;> simp [setReg]

/-- On the path where the status tested at line 92 is `HAL_OK`: for every 16-bit
configuration value read back and every channel in 1..7, the configuration value left in
`Reg[ADS1115_REG_CONFIG]` has the channel number in its MUX field (bits 14..12) and
every other bit (bit 15, bits 11..0) equal to the value read; when the register-pointer
transmission succeeds, the two bytes of exactly this value are what the last
transmission sends. -/
theorem SetChannel_mux_when_status_ok (hads1115 : ADS1115_Handle_t) (channel : Nat)
    (bus : ADS1115_Bus) (hch : 1 ≤ channel ∧ channel ≤ 7)
    (hv : (ADS1115_ReadConfigReg hads1115 bus).2.1.Reg 0x01 < 65536) :
    ((ADS1115_SetChannel hads1115 channel bus HAL_OK).2.1.Reg 0x01 / 4096 % 8 = channel ∧
      (ADS1115_SetChannel hads1115 channel bus HAL_OK).2.1.Reg 0x01 % 4096
        = (ADS1115_ReadConfigReg hads1115 bus).2.1.Reg 0x01 % 4096 ∧
      (ADS1115_SetChannel hads1115 channel bus HAL_OK).2.1.Reg 0x01 / 32768
        = (ADS1115_ReadConfigReg hads1115 bus).2.1.Reg 0x01 / 32768) ∧
    (bus.transmit [0x01] = HAL_OK →
      (ADS1115_SetChannel hads1115 channel bus HAL_OK).2.2.getLast?
        = some (u16_bytes ((ADS1115_SetChannel hads1115 channel bus HAL_OK).2.1.Reg 0x01))) := by
  obtain ⟨m1, m2, m3, _⟩ :=
    mux_replace ((ADS1115_ReadConfigReg hads1115 bus).2.1.Reg 0x01) channel hv hch.2
  refine ⟨?_, fun htx => ?_⟩
  · rw [SetChannel_config_value]
    exact ⟨m1, m2, m3⟩
  · unfold ADS1115_SetChannel
    simp only [ne_eq, not_true_eq_false, if_false, htx]
    simp

/-- Whenever the value found in the unassigned local `status` at line 92 is not
`HAL_OK`, `ADS1115_SetChannel` returns that value straight after
`ADS1115_ReadConfigReg`: the handle and the transmissions are those of the read-back
alone, so nothing is cleared, set or written. -/
theorem SetChannel_returns_at_line_92 (hads1115 : ADS1115_Handle_t) (channel : Nat)
    (bus : ADS1115_Bus) (status0 : HAL_StatusTypeDef) (hs : status0 ≠ HAL_OK) :
    ADS1115_SetChannel hads1115 channel bus status0
      = (status0, (ADS1115_ReadConfigReg hads1115 bus).2.1,
          (ADS1115_ReadConfigReg hads1115 bus).2.2) := by
  unfold ADS1115_SetChannel
  simp only [if_pos hs]

/-- C26 fails: `ADS1115_SetChannel` tests its local `status` at line 92 although nothing
has been assigned to it (the status returned by `ADS1115_ReadConfigReg` at line 91 is
discarded).  With the configuration value 0xC583 read back (bytes `83 C5` in memory,
MUX field 4), channel `AIN2 = 6` and every transfer succeeding, each of the three values
of `status` other than `HAL_OK` makes the function return that value with
`Reg[ADS1115_REG_CONFIG]` still 0xC583, MUX field 4 and not 6, after the single
register-pointer transmission of the read-back: no configuration value is written.
Only when the unassigned local happens to hold `HAL_OK` is 0xE583 left and sent. -/
theorem SetChannel_tests_unassigned_status :
    (ADS1115_ReadConfigReg blankHandle (okBus [0x83, 0xC5])).2.1.Reg 0x01 = 0xC583 ∧
    (0xC583 / 4096 % 8 = 4 ∧ 0xE583 / 4096 % 8 = 6) ∧
    ((ADS1115_SetChannel blankHandle 6 (okBus [0x83, 0xC5]) HAL_ERROR).1 = HAL_ERROR ∧
      (ADS1115_SetChannel blankHandle 6 (okBus [0x83, 0xC5]) HAL_ERROR).2.1.Reg 0x01
        = 0xC583 ∧
      (ADS1115_SetChannel blankHandle 6 (okBus [0x83, 0xC5]) HAL_ERROR).2.2 = [[0x01]]) ∧
    ((ADS1115_SetChannel blankHandle 6 (okBus [0x83, 0xC5]) HAL_BUSY).1 = HAL_BUSY ∧
      (ADS1115_SetChannel blankHandle 6 (okBus [0x83, 0xC5]) HAL_BUSY).2.1.Reg 0x01
        = 0xC583 ∧
      (ADS1115_SetChannel blankHandle 6 (okBus [0x83, 0xC5]) HAL_BUSY).2.2 = [[0x01]]) ∧
    ((ADS1115_SetChannel blankHandle 6 (okBus [0x83, 0xC5]) HAL_TIMEOUT).1 = HAL_TIMEOUT ∧
      (ADS1115_SetChannel blankHandle 6 (okBus [0x83, 0xC5]) HAL_TIMEOUT).2.1.Reg 0x01
        = 0xC583 ∧
      (ADS1115_SetChannel blankHandle 6 (okBus [0x83, 0xC5]) HAL_TIMEOUT).2.2 = [[0x01]]) ∧
    ((ADS1115_SetChannel blankHandle 6 (okBus [0x83, 0xC5]) HAL_OK).1 = HAL_OK ∧
      (ADS1115_SetChannel blankHandle 6 (okBus [0x83, 0xC5]) HAL_OK).2.1.Reg 0x01
        = 0xE583 ∧
      (ADS1115_SetChannel blankHandle 6 (okBus [0x83, 0xC5]) HAL_OK).2.2
        = [[0x01], [0x01], [0x83, 0xE5]]) := by
  decide

end ADS1115
